import Mathlib

/-!
Verification of the multi-task LED blinker scheduler (src/src/main.c, src/src/led.c).

The C sources are shallowly embedded below.  Machine integers are modelled as
Nat with explicit reduction modulo 2^32 (uint32_t) or 256 (uint8_t) at the
points where the C code can overflow.  The Task Control Block table, the
global tick counter, the current-task index and the PendSV pending flag form
a scheduler state; each C function becomes a pure function on that state.
RAM touched by the stack-frame initializer is modelled as a word-indexed map
from byte addresses to 32-bit values.
-/

/-- The modulus of uint32_t arithmetic, 2^32. -/
def U32_MOD : Nat := 4294967296

-- Constants from src/src/main.h.
def MAX_TASKS : Nat := 5
def SIZE_TASK_STACK : Nat := 1024
def SRAM_START : Nat := 0x20000000
def SRAM_SIZE : Nat := 128 * 1024
def SRAM_END : Nat := SRAM_START + SRAM_SIZE
def T1_STACK_START : Nat := SRAM_END
def T2_STACK_START : Nat := SRAM_END - 1 * SIZE_TASK_STACK
def T3_STACK_START : Nat := SRAM_END - 2 * SIZE_TASK_STACK
def T4_STACK_START : Nat := SRAM_END - 3 * SIZE_TASK_STACK
def IDLE_STACK_START : Nat := SRAM_END - 4 * SIZE_TASK_STACK
def DUMMY_XPSR : Nat := 0x01000000

/-- Task states: `TASK_READY_STATE` (0x00) and `TASK_BLOCKED_STATE` (0xFF)
are the only two values `current_state` ever holds in the source. -/
inductive TaskState
  | ready
  | blocked
deriving DecidableEq

/-- Task Control Block, mirroring `TCB_t` in main.c.  The function pointer
`task_handler` is modelled as an abstract code address. -/
structure TCB where
  psp_value : Nat
  block_count : Nat
  current_state : TaskState
  task_handler : Nat
deriving DecidableEq

/-- The scheduler-visible global state of main.c: the TCB table
`user_tasks`, the tick counter `g_tick_count`, the running-task index
`current_task` (a uint8_t that provably stays below MAX_TASKS, hence Fin 5)
and the PendSV-pending bit of ICSR. -/
structure SchedState where
  user_tasks : Fin 5 → TCB
  g_tick_count : Nat
  current_task : Fin 5
  pendsv : Bool

/-- Embedding of `PSP_INIT_ADDRS` from main.c: initial stack tops, indexed by task. -/
def PSP_INIT_ADDRS : Fin 5 → Nat := fun i =>
  match i with
  | ⟨0, _⟩ => IDLE_STACK_START
  | ⟨1, _⟩ => T1_STACK_START
  | ⟨2, _⟩ => T2_STACK_START
  | ⟨3, _⟩ => T3_STACK_START
  | ⟨4, _⟩ => T4_STACK_START
  | ⟨n + 5, h⟩ => absurd h (Nat.not_lt.mpr (Nat.le_add_left 5 n))

/-- Embedding of `update_global_tick_count` from main.c: `g_tick_count++` on uint32_t. -/
def update_global_tick_count (g : Nat) : Nat := (g + 1) % U32_MOD

/-- Embedding of `unblock_tasks` from main.c: for every TCB whose state is not READY,
set it READY exactly when its `block_count` equals the tick counter.
The loop body touches only task i, so it is a pointwise map. -/
def unblock_tasks (tasks : Fin 5 → TCB) (g : Nat) : Fin 5 → TCB :=
  fun i =>
    let t := tasks i
    if t.current_state ≠ TaskState.ready then
      if t.block_count = g then { t with current_state := TaskState.ready } else t
    else t

/-- Embedding of `SysTick_Handler` from main.c: bump the tick counter, run the unblock
scan against the new counter value, then pend PendSV. -/
def SysTick_Handler (s : SchedState) : SchedState :=
  let g := update_global_tick_count s.g_tick_count
  { s with g_tick_count := g,
           user_tasks := unblock_tasks s.user_tasks g,
           pendsv := true }

/-- Embedding of `schedule` from main.c: set the PendSV-pending bit of ICSR. -/
def schedule (s : SchedState) : SchedState := { s with pendsv := true }

/-- Embedding of `task_delay` from main.c: record the wake tick (uint32_t addition),
mark the calling task BLOCKED, and pend a context switch. -/
def task_delay (d : Nat) (s : SchedState) : SchedState :=
  let t := s.user_tasks s.current_task
  let t' : TCB := { t with block_count := (s.g_tick_count + d) % U32_MOD,
                           current_state := TaskState.blocked }
  schedule { s with user_tasks := Function.update s.user_tasks s.current_task t' }

/-- The for-loop of `update_current_task`, by remaining iteration count.
Each iteration advances `current_task` (uint8_t increment wrapping at 256,
then `%= 5`, so the stored index is always below 5, hence Fin 5), reads
that task's state, and breaks on a READY non-idle task. -/
def uctLoop (tasks : Fin 5 → TCB) : Nat → Fin 5 → TaskState → Fin 5 × TaskState
  | 0, cur, st => (cur, st)
  | Nat.succ n, cur, _st =>
      let c : Fin 5 := ⟨(cur.val + 1) % 256 % 5, Nat.mod_lt _ (Nat.zero_lt_succ 4)⟩
      let st' := (tasks c).current_state
      if st' = TaskState.ready ∧ c.val ≠ 0 then (c, st')
      else uctLoop tasks n c st'

/-- Embedding of `update_current_task` from main.c: run the scan for MAX_TASKS
iterations starting from `cur` with the local `state` initialized to
TASK_BLOCKED_STATE; afterwards, if `state` is still BLOCKED, fall back to
the idle index 0. -/
def update_current_task (tasks : Fin 5 → TCB) (cur : Fin 5) : Fin 5 :=
  let r := uctLoop tasks 5 cur TaskState.blocked
  if r.2 = TaskState.blocked then ⟨0, Nat.zero_lt_succ 4⟩ else r.1

/-- Embedding of `PendSV_Handler` from main.c, at the level of scheduler state: save the
outgoing task's process stack pointer into its TCB (`save_psp_value`), run
`update_current_task`, and clear the pending request.  The value pushed by
the hardware save is the incoming `psp` argument; the register file itself
is below this model. -/
def pendsv_switch (psp : Nat) (s : SchedState) : SchedState :=
  let tasks' := Function.update s.user_tasks s.current_task
    { s.user_tasks s.current_task with psp_value := psp }
  { s with user_tasks := tasks',
           current_task := update_current_task tasks' s.current_task,
           pendsv := false }

/-- One tick period in which the pended context switch is then serviced:
`SysTick_Handler` followed by `PendSV_Handler`.  The stack-pointer value the
hardware would hand to the save step does not affect scheduling, so the
previously saved one is passed through. -/
def tick_then_switch (s : SchedState) : SchedState :=
  let s' := SysTick_Handler s
  pendsv_switch (s'.user_tasks s'.current_task).psp_value s'

-- -----------------------------------------------------------------------------
-- Stack frame construction (init_tasks_stack), over word-granular RAM.
-- -----------------------------------------------------------------------------

/-- The body of the per-task loop of `init_tasks_stack` acting on RAM.
`pPSP` starts at the stack top; every store is `*--pPSP = v`, i.e. at
top-4, top-8, ... (uint32_t stores, descending byte addresses).  The two
constant-count zeroing loops (5 words R12,R3-R0 and 8 words R4-R11) are
unrolled.  Returns the new RAM and the final `pPSP` saved into the TCB. -/
def init_task_frame (mem : Nat → Nat) (top hdl : Nat) : (Nat → Nat) × Nat :=
  let m := Function.update mem (top - 4) DUMMY_XPSR
  let m := Function.update m (top - 8) hdl
  let m := Function.update m (top - 12) 0xFFFFFFFD
  let m := Function.update m (top - 16) 0
  let m := Function.update m (top - 20) 0
  let m := Function.update m (top - 24) 0
  let m := Function.update m (top - 28) 0
  let m := Function.update m (top - 32) 0
  let m := Function.update m (top - 36) 0
  let m := Function.update m (top - 40) 0
  let m := Function.update m (top - 44) 0
  let m := Function.update m (top - 48) 0
  let m := Function.update m (top - 52) 0
  let m := Function.update m (top - 56) 0
  let m := Function.update m (top - 60) 0
  let m := Function.update m (top - 64) 0
  (m, top - 64)

/-- Embedding of `init_tasks_stack` from main.c, with the i = 0..4 loop unrolled: every
task gets state TASK_READY_STATE, its handler address (`hdl i`, abstract
link-time constants), and a fabricated exception frame at its stack top;
`psp_value` ends up just below the frame.  `block_count` is 0, the value of
the zero-initialized global.  Returns the TCB table and the written RAM. -/
def init_tasks_stack (hdl : Fin 5 → Nat) (mem0 : Nat → Nat) :
    (Fin 5 → TCB) × (Nat → Nat) :=
  let f0 := init_task_frame mem0 (PSP_INIT_ADDRS 0) (hdl 0)
  let f1 := init_task_frame f0.1 (PSP_INIT_ADDRS 1) (hdl 1)
  let f2 := init_task_frame f1.1 (PSP_INIT_ADDRS 2) (hdl 2)
  let f3 := init_task_frame f2.1 (PSP_INIT_ADDRS 3) (hdl 3)
  let f4 := init_task_frame f3.1 (PSP_INIT_ADDRS 4) (hdl 4)
  (fun i =>
    { psp_value :=
        match i with
        | ⟨0, _⟩ => f0.2
        | ⟨1, _⟩ => f1.2
        | ⟨2, _⟩ => f2.2
        | ⟨3, _⟩ => f3.2
        | ⟨4, _⟩ => f4.2
        | ⟨n + 5, h⟩ => absurd h (Nat.not_lt.mpr (Nat.le_add_left 5 n)),
      block_count := 0,
      current_state := TaskState.ready,
      task_handler := hdl i },
   f4.1)

/-- The state right after `main` has run the initialization sequence:
TCB table built by `init_tasks_stack`, `g_tick_count = 0`,
`current_task = 1`, no switch pending.  Parametric in the handler
addresses and the initial RAM contents. -/
def initState (hdl : Fin 5 → Nat) (mem0 : Nat → Nat) : SchedState :=
  { user_tasks := (init_tasks_stack hdl mem0).1,
    g_tick_count := 0,
    current_task := 1,
    pendsv := false }

/-- States reachable from initialization by the system's operations: tick
firings, PendSV context switches (with an arbitrary saved stack-pointer
value), and `task_delay` calls.  Delay is only ever executed by the running
task, and the idle task's body never calls it, hence the `current_task ≠ 0`
side condition on delay steps. -/
inductive Reachable (hdl : Fin 5 → Nat) (mem0 : Nat → Nat) : SchedState → Prop
  | init : Reachable hdl mem0 (initState hdl mem0)
  | tick (s : SchedState) : Reachable hdl mem0 s →
      Reachable hdl mem0 (SysTick_Handler s)
  | switch (s : SchedState) (psp : Nat) : Reachable hdl mem0 s →
      Reachable hdl mem0 (pendsv_switch psp s)
  | delay (s : SchedState) (d : Nat) : Reachable hdl mem0 s →
      s.current_task ≠ 0 → Reachable hdl mem0 (task_delay d s)

-- -----------------------------------------------------------------------------
-- LED driver (led.c): the GPIOD output data register as a 32-bit word.
-- -----------------------------------------------------------------------------

/-- Embedding of `led_on` from led.c: `GPIOD_ODR |= (1UL << led_no)`. -/
def led_on (led_no : Nat) (odr : Nat) : Nat := odr ||| (1 <<< led_no)

/-- Embedding of `led_off` from led.c: `GPIOD_ODR &= ~(1UL << led_no)`; the uint32_t
complement of the single-bit mask is its xor with 0xFFFFFFFF. -/
def led_off (led_no : Nat) (odr : Nat) : Nat :=
  odr &&& (0xFFFFFFFF ^^^ (1 <<< led_no))

-- -----------------------------------------------------------------------------
-- Spec-side definitions (from the spec's words, for refinement claims only).
-- -----------------------------------------------------------------------------

/-- The circular scan order of one full revolution: indices
current+1, current+2, ..., current+5, modulo the table size. -/
def candList (cur : Fin 5) : List (Fin 5) :=
  (List.range 5).map (fun k => ⟨(cur.val + 1 + k) % 5, Nat.mod_lt _ (Nat.zero_lt_succ 4)⟩)

/-- Modelled from the spec (section 4.3): scan forward circularly from
current+1 for up to one full revolution and select the first index that is
both READY and not the idle index; if none qualifies, select the idle
index 0. -/
def selectSpec (tasks : Fin 5 → TCB) (cur : Fin 5) : Fin 5 :=
  match (candList cur).find? (fun i =>
      decide ((tasks i).current_state = TaskState.ready) && decide (i.val ≠ 0)) with
  | some i => i
  | none => ⟨0, Nat.zero_lt_succ 4⟩

/-- The non-idle READY tasks, listed in circular index order starting after
`cur`: the order in which one round-robin revolution should visit them. -/
def readyRound (tasks : Fin 5 → TCB) (cur : Fin 5) : List (Fin 5) :=
  (candList cur).filter (fun i =>
    decide ((tasks i).current_state = TaskState.ready) && decide (i.val ≠ 0))

/-- n-fold iteration of the scheduler's selection with a fixed TCB table
(the "no task ever blocking" dynamics). -/
def selIter (tasks : Fin 5 → TCB) (cur : Fin 5) : Nat → Fin 5
  | 0 => cur
  | n + 1 => update_current_task tasks (selIter tasks cur n)

/-- A TCB table carrying only the five scheduling states (all other fields
zero); the selection logic reads nothing else. -/
def mkTable5 (a b c d e : TaskState) : Fin 5 → TCB := fun i =>
  match i with
  | ⟨0, _⟩ => { psp_value := 0, block_count := 0, current_state := a, task_handler := 0 }
  | ⟨1, _⟩ => { psp_value := 0, block_count := 0, current_state := b, task_handler := 0 }
  | ⟨2, _⟩ => { psp_value := 0, block_count := 0, current_state := c, task_handler := 0 }
  | ⟨3, _⟩ => { psp_value := 0, block_count := 0, current_state := d, task_handler := 0 }
  | ⟨4, _⟩ => { psp_value := 0, block_count := 0, current_state := e, task_handler := 0 }
  | ⟨n + 5, h⟩ => absurd h (Nat.not_lt.mpr (Nat.le_add_left 5 n))

-- Concrete sample data used by witness theorems.

/-- A table with every task READY. -/
def sampleTasks : Fin 5 → TCB :=
  fun _ => { psp_value := 0, block_count := 0, current_state := TaskState.ready, task_handler := 0 }

/-- A table with the idle task READY and every user task BLOCKED. -/
def sampleBlockedTasks : Fin 5 → TCB :=
  fun i => { psp_value := 0, block_count := 0,
             current_state := if i.val = 0 then TaskState.ready else TaskState.blocked,
             task_handler := 0 }

/-- A sample whole-scheduler state: all tasks READY, tick 0, task 1 running. -/
def sampleState : SchedState :=
  { user_tasks := sampleTasks, g_tick_count := 0, current_task := 1, pendsv := false }

-- -----------------------------------------------------------------------------
-- Helper lemmas
-- -----------------------------------------------------------------------------

lemma unblock_preserves_ready (tasks : Fin 5 → TCB) (g : Nat) (i : Fin 5)
    (h : (tasks i).current_state = TaskState.ready) :
    unblock_tasks tasks g i = tasks i := by
  unfold unblock_tasks
  simp [h]

lemma unblock_block_count (tasks : Fin 5 → TCB) (g : Nat) (i : Fin 5) :
    (unblock_tasks tasks g i).block_count = (tasks i).block_count := by
  unfold unblock_tasks
  rcases h : (tasks i).current_state <;> by_cases hb : (tasks i).block_count = g <;>
    simp [h, hb]

-- -----------------------------------------------------------------------------
-- C3
-- -----------------------------------------------------------------------------

/-- C3: the unblock scan turns a task READY exactly when its recorded wake
tick equals the tick counter value it is scanned against (equality, not ≥),
and it leaves a task that is already READY untouched. -/
theorem unblock_exact_equality (tasks : Fin 5 → TCB) (g : Nat) (i : Fin 5) :
    ((unblock_tasks tasks g i).current_state = TaskState.ready ↔
      ((tasks i).current_state = TaskState.ready ∨ (tasks i).block_count = g)) ∧
    ((tasks i).current_state = TaskState.ready → unblock_tasks tasks g i = tasks i) := by
  constructor
  · unfold unblock_tasks
    rcases h : (tasks i).current_state <;> by_cases hb : (tasks i).block_count = g <;>
      simp [h, hb]
  · exact unblock_preserves_ready tasks g i

theorem unblock_exact_equality_witness :
    (sampleBlockedTasks 2).current_state ≠ TaskState.ready ∧
    (sampleBlockedTasks 2).block_count = 0 ∧
    (unblock_tasks sampleBlockedTasks 0 2).current_state = TaskState.ready ∧
    (sampleTasks 1).current_state = TaskState.ready ∧
    unblock_tasks sampleTasks 7 1 = sampleTasks 1 := by
  refine ⟨by decide, by decide, ?_, by decide, ?_⟩
  · exact (unblock_exact_equality sampleBlockedTasks 0 2).1.mpr (Or.inr (by decide))
  · exact (unblock_exact_equality sampleTasks 7 1).2 (by decide)

-- -----------------------------------------------------------------------------
-- C4
-- -----------------------------------------------------------------------------

/-- C4: `task_delay d` sets the calling task's wake tick to
`g_tick_count + d` (uint32_t arithmetic), marks it BLOCKED, pends the
context switch, and changes nothing else: the other TCB fields of the
caller, every other TCB, the tick counter and the current-task index are
all unchanged. -/
theorem task_delay_effects (s : SchedState) (d : Nat) :
    ((task_delay d s).user_tasks s.current_task).block_count =
      (s.g_tick_count + d) % U32_MOD ∧
    ((task_delay d s).user_tasks s.current_task).current_state = TaskState.blocked ∧
    ((task_delay d s).user_tasks s.current_task).psp_value =
      (s.user_tasks s.current_task).psp_value ∧
    ((task_delay d s).user_tasks s.current_task).task_handler =
      (s.user_tasks s.current_task).task_handler ∧
    (∀ i : Fin 5, i ≠ s.current_task → (task_delay d s).user_tasks i = s.user_tasks i) ∧
    (task_delay d s).pendsv = true ∧
    (task_delay d s).g_tick_count = s.g_tick_count ∧
    (task_delay d s).current_task = s.current_task := by
  unfold task_delay schedule
  refine ⟨by simp, by simp, by simp, by simp, ?_, rfl, rfl, rfl⟩
  intro i hi
  simp [Function.update_noteq hi]

theorem task_delay_effects_witness :
    ((task_delay 3 sampleState).user_tasks sampleState.current_task).block_count =
      (sampleState.g_tick_count + 3) % U32_MOD ∧
    (2 : Fin 5) ≠ sampleState.current_task ∧
    (task_delay 3 sampleState).user_tasks 2 = sampleState.user_tasks 2 := by
  refine ⟨(task_delay_effects sampleState 3).1, by decide, ?_⟩
  exact (task_delay_effects sampleState 3).2.2.2.2.1 2 (by decide)

-- -----------------------------------------------------------------------------
-- C9
-- -----------------------------------------------------------------------------

lemma systick_tick_step (s : SchedState) (h : s.g_tick_count + 1 < U32_MOD) :
    (SysTick_Handler s).g_tick_count = s.g_tick_count + 1 := by
  simp only [U32_MOD] at h
  simp only [SysTick_Handler, update_global_tick_count, U32_MOD]
  omega

lemma systick_iter_tick (N : Nat) : ∀ s : SchedState,
    s.g_tick_count + N < U32_MOD →
    (SysTick_Handler^[N] s).g_tick_count = s.g_tick_count + N := by
  induction N with
  | zero => intro s _; simp
  | succ n ih =>
      intro s h
      simp only [U32_MOD] at h
      have h1 : (SysTick_Handler s).g_tick_count = s.g_tick_count + 1 :=
        systick_tick_step s (by simp only [U32_MOD]; omega)
      have h2 : (SysTick_Handler s).g_tick_count + n < U32_MOD := by
        rw [h1]; simp only [U32_MOD]; omega
      rw [Function.iterate_succ_apply, ih _ h2, h1]
      omega

/-- C9: over N firings of the tick handler the global tick counter grows by
exactly N (no skips, no double counts, within the uint32 range), and each
firing first increments the counter, then runs the unblock scan against the
new counter value, then pends the context switch. -/
theorem systick_tick_accounting (s : SchedState) (N : Nat)
    (h : s.g_tick_count + N < U32_MOD) :
    (SysTick_Handler^[N] s).g_tick_count = s.g_tick_count + N ∧
    ((SysTick_Handler s).g_tick_count = (s.g_tick_count + 1) % U32_MOD ∧
     (SysTick_Handler s).user_tasks =
       unblock_tasks s.user_tasks ((s.g_tick_count + 1) % U32_MOD) ∧
     (SysTick_Handler s).pendsv = true) := by
  exact ⟨systick_iter_tick N s h, rfl, rfl, rfl⟩

theorem systick_tick_accounting_witness :
    (SysTick_Handler^[3] sampleState).g_tick_count = sampleState.g_tick_count + 3 :=
  (systick_tick_accounting sampleState 3 (by decide)).1

-- -----------------------------------------------------------------------------
-- The selection logic reads only the state column of the TCB table.
-- -----------------------------------------------------------------------------

lemma uctLoop_states (t1 t2 : Fin 5 → TCB)
    (h : ∀ i, (t1 i).current_state = (t2 i).current_state) :
    ∀ (n : Nat) (cur : Fin 5) (st : TaskState),
      uctLoop t1 n cur st = uctLoop t2 n cur st := by
  intro n
  induction n with
  | zero => intro cur st; rfl
  | succ n ih =>
      intro cur st
      simp only [uctLoop, h]
      split_ifs
      · rfl
      · exact ih _ _

lemma update_current_task_states (t1 t2 : Fin 5 → TCB)
    (h : ∀ i, (t1 i).current_state = (t2 i).current_state) (cur : Fin 5) :
    update_current_task t1 cur = update_current_task t2 cur := by
  unfold update_current_task
  rw [uctLoop_states t1 t2 h]

lemma selIter_states (t1 t2 : Fin 5 → TCB)
    (h : ∀ i, (t1 i).current_state = (t2 i).current_state) (cur : Fin 5) :
    ∀ n, selIter t1 cur n = selIter t2 cur n := by
  intro n
  induction n with
  | zero => rfl
  | succ n ih =>
      simp only [selIter, ih]
      exact update_current_task_states t1 t2 h _

lemma selectSpec_states (t1 t2 : Fin 5 → TCB)
    (h : ∀ i, (t1 i).current_state = (t2 i).current_state) (cur : Fin 5) :
    selectSpec t1 cur = selectSpec t2 cur := by
  unfold selectSpec
  have hp : (fun i : Fin 5 =>
        decide ((t1 i).current_state = TaskState.ready) && decide (i.val ≠ 0))
      = (fun i : Fin 5 =>
        decide ((t2 i).current_state = TaskState.ready) && decide (i.val ≠ 0)) := by
    funext i
    rw [h i]
  rw [hp]

lemma readyRound_states (t1 t2 : Fin 5 → TCB)
    (h : ∀ i, (t1 i).current_state = (t2 i).current_state) (cur : Fin 5) :
    readyRound t1 cur = readyRound t2 cur := by
  unfold readyRound
  have hp : (fun i : Fin 5 =>
        decide ((t1 i).current_state = TaskState.ready) && decide (i.val ≠ 0))
      = (fun i : Fin 5 =>
        decide ((t2 i).current_state = TaskState.ready) && decide (i.val ≠ 0)) := by
    funext i
    rw [h i]
  rw [hp]

lemma mkTable5_states (tasks : Fin 5 → TCB) :
    ∀ i, (mkTable5 (tasks 0).current_state (tasks 1).current_state
        (tasks 2).current_state (tasks 3).current_state (tasks 4).current_state
        i).current_state = (tasks i).current_state := by
  intro i
  fin_cases i <;> rfl

-- Both halves of C1, checked over all 32 state tables and 5 start indices,
-- split into chunks so that each kernel check stays small.
lemma srr_aux0 : ∀ (e : TaskState) (cur : Fin 5),
    update_current_task (mkTable5 TaskState.ready TaskState.ready TaskState.ready TaskState.ready e) cur = selectSpec (mkTable5 TaskState.ready TaskState.ready TaskState.ready TaskState.ready e) cur ∧
    (List.range (readyRound (mkTable5 TaskState.ready TaskState.ready TaskState.ready TaskState.ready e) cur).length).map
        (fun m => selIter (mkTable5 TaskState.ready TaskState.ready TaskState.ready TaskState.ready e) cur (m + 1))
      = readyRound (mkTable5 TaskState.ready TaskState.ready TaskState.ready TaskState.ready e) cur := by
  intro e cur
  cases e <;> fin_cases cur <;> decide

lemma srr_aux1 : ∀ (e : TaskState) (cur : Fin 5),
    update_current_task (mkTable5 TaskState.ready TaskState.ready TaskState.ready TaskState.blocked e) cur = selectSpec (mkTable5 TaskState.ready TaskState.ready TaskState.ready TaskState.blocked e) cur ∧
    (List.range (readyRound (mkTable5 TaskState.ready TaskState.ready TaskState.ready TaskState.blocked e) cur).length).map
        (fun m => selIter (mkTable5 TaskState.ready TaskState.ready TaskState.ready TaskState.blocked e) cur (m + 1))
      = readyRound (mkTable5 TaskState.ready TaskState.ready TaskState.ready TaskState.blocked e) cur := by
  intro e cur
  cases e <;> fin_cases cur <;> decide

lemma srr_aux2 : ∀ (e : TaskState) (cur : Fin 5),
    update_current_task (mkTable5 TaskState.ready TaskState.ready TaskState.blocked TaskState.ready e) cur = selectSpec (mkTable5 TaskState.ready TaskState.ready TaskState.blocked TaskState.ready e) cur ∧
    (List.range (readyRound (mkTable5 TaskState.ready TaskState.ready TaskState.blocked TaskState.ready e) cur).length).map
        (fun m => selIter (mkTable5 TaskState.ready TaskState.ready TaskState.blocked TaskState.ready e) cur (m + 1))
      = readyRound (mkTable5 TaskState.ready TaskState.ready TaskState.blocked TaskState.ready e) cur := by
  intro e cur
  cases e <;> fin_cases cur <;> decide

lemma srr_aux3 : ∀ (e : TaskState) (cur : Fin 5),
    update_current_task (mkTable5 TaskState.ready TaskState.ready TaskState.blocked TaskState.blocked e) cur = selectSpec (mkTable5 TaskState.ready TaskState.ready TaskState.blocked TaskState.blocked e) cur ∧
    (List.range (readyRound (mkTable5 TaskState.ready TaskState.ready TaskState.blocked TaskState.blocked e) cur).length).map
        (fun m => selIter (mkTable5 TaskState.ready TaskState.ready TaskState.blocked TaskState.blocked e) cur (m + 1))
      = readyRound (mkTable5 TaskState.ready TaskState.ready TaskState.blocked TaskState.blocked e) cur := by
  intro e cur
  cases e <;> fin_cases cur <;> decide

lemma srr_aux4 : ∀ (e : TaskState) (cur : Fin 5),
    update_current_task (mkTable5 TaskState.ready TaskState.blocked TaskState.ready TaskState.ready e) cur = selectSpec (mkTable5 TaskState.ready TaskState.blocked TaskState.ready TaskState.ready e) cur ∧
    (List.range (readyRound (mkTable5 TaskState.ready TaskState.blocked TaskState.ready TaskState.ready e) cur).length).map
        (fun m => selIter (mkTable5 TaskState.ready TaskState.blocked TaskState.ready TaskState.ready e) cur (m + 1))
      = readyRound (mkTable5 TaskState.ready TaskState.blocked TaskState.ready TaskState.ready e) cur := by
  intro e cur
  cases e <;> fin_cases cur <;> decide

lemma srr_aux5 : ∀ (e : TaskState) (cur : Fin 5),
    update_current_task (mkTable5 TaskState.ready TaskState.blocked TaskState.ready TaskState.blocked e) cur = selectSpec (mkTable5 TaskState.ready TaskState.blocked TaskState.ready TaskState.blocked e) cur ∧
    (List.range (readyRound (mkTable5 TaskState.ready TaskState.blocked TaskState.ready TaskState.blocked e) cur).length).map
        (fun m => selIter (mkTable5 TaskState.ready TaskState.blocked TaskState.ready TaskState.blocked e) cur (m + 1))
      = readyRound (mkTable5 TaskState.ready TaskState.blocked TaskState.ready TaskState.blocked e) cur := by
  intro e cur
  cases e <;> fin_cases cur <;> decide

lemma srr_aux6 : ∀ (e : TaskState) (cur : Fin 5),
    update_current_task (mkTable5 TaskState.ready TaskState.blocked TaskState.blocked TaskState.ready e) cur = selectSpec (mkTable5 TaskState.ready TaskState.blocked TaskState.blocked TaskState.ready e) cur ∧
    (List.range (readyRound (mkTable5 TaskState.ready TaskState.blocked TaskState.blocked TaskState.ready e) cur).length).map
        (fun m => selIter (mkTable5 TaskState.ready TaskState.blocked TaskState.blocked TaskState.ready e) cur (m + 1))
      = readyRound (mkTable5 TaskState.ready TaskState.blocked TaskState.blocked TaskState.ready e) cur := by
  intro e cur
  cases e <;> fin_cases cur <;> decide

lemma srr_aux7 : ∀ (e : TaskState) (cur : Fin 5),
    update_current_task (mkTable5 TaskState.ready TaskState.blocked TaskState.blocked TaskState.blocked e) cur = selectSpec (mkTable5 TaskState.ready TaskState.blocked TaskState.blocked TaskState.blocked e) cur ∧
    (List.range (readyRound (mkTable5 TaskState.ready TaskState.blocked TaskState.blocked TaskState.blocked e) cur).length).map
        (fun m => selIter (mkTable5 TaskState.ready TaskState.blocked TaskState.blocked TaskState.blocked e) cur (m + 1))
      = readyRound (mkTable5 TaskState.ready TaskState.blocked TaskState.blocked TaskState.blocked e) cur := by
  intro e cur
  cases e <;> fin_cases cur <;> decide

lemma srr_aux8 : ∀ (e : TaskState) (cur : Fin 5),
    update_current_task (mkTable5 TaskState.blocked TaskState.ready TaskState.ready TaskState.ready e) cur = selectSpec (mkTable5 TaskState.blocked TaskState.ready TaskState.ready TaskState.ready e) cur ∧
    (List.range (readyRound (mkTable5 TaskState.blocked TaskState.ready TaskState.ready TaskState.ready e) cur).length).map
        (fun m => selIter (mkTable5 TaskState.blocked TaskState.ready TaskState.ready TaskState.ready e) cur (m + 1))
      = readyRound (mkTable5 TaskState.blocked TaskState.ready TaskState.ready TaskState.ready e) cur := by
  intro e cur
  cases e <;> fin_cases cur <;> decide

lemma srr_aux9 : ∀ (e : TaskState) (cur : Fin 5),
    update_current_task (mkTable5 TaskState.blocked TaskState.ready TaskState.ready TaskState.blocked e) cur = selectSpec (mkTable5 TaskState.blocked TaskState.ready TaskState.ready TaskState.blocked e) cur ∧
    (List.range (readyRound (mkTable5 TaskState.blocked TaskState.ready TaskState.ready TaskState.blocked e) cur).length).map
        (fun m => selIter (mkTable5 TaskState.blocked TaskState.ready TaskState.ready TaskState.blocked e) cur (m + 1))
      = readyRound (mkTable5 TaskState.blocked TaskState.ready TaskState.ready TaskState.blocked e) cur := by
  intro e cur
  cases e <;> fin_cases cur <;> decide

lemma srr_aux10 : ∀ (e : TaskState) (cur : Fin 5),
    update_current_task (mkTable5 TaskState.blocked TaskState.ready TaskState.blocked TaskState.ready e) cur = selectSpec (mkTable5 TaskState.blocked TaskState.ready TaskState.blocked TaskState.ready e) cur ∧
    (List.range (readyRound (mkTable5 TaskState.blocked TaskState.ready TaskState.blocked TaskState.ready e) cur).length).map
        (fun m => selIter (mkTable5 TaskState.blocked TaskState.ready TaskState.blocked TaskState.ready e) cur (m + 1))
      = readyRound (mkTable5 TaskState.blocked TaskState.ready TaskState.blocked TaskState.ready e) cur := by
  intro e cur
  cases e <;> fin_cases cur <;> decide

lemma srr_aux11 : ∀ (e : TaskState) (cur : Fin 5),
    update_current_task (mkTable5 TaskState.blocked TaskState.ready TaskState.blocked TaskState.blocked e) cur = selectSpec (mkTable5 TaskState.blocked TaskState.ready TaskState.blocked TaskState.blocked e) cur ∧
    (List.range (readyRound (mkTable5 TaskState.blocked TaskState.ready TaskState.blocked TaskState.blocked e) cur).length).map
        (fun m => selIter (mkTable5 TaskState.blocked TaskState.ready TaskState.blocked TaskState.blocked e) cur (m + 1))
      = readyRound (mkTable5 TaskState.blocked TaskState.ready TaskState.blocked TaskState.blocked e) cur := by
  intro e cur
  cases e <;> fin_cases cur <;> decide

lemma srr_aux12 : ∀ (e : TaskState) (cur : Fin 5),
    update_current_task (mkTable5 TaskState.blocked TaskState.blocked TaskState.ready TaskState.ready e) cur = selectSpec (mkTable5 TaskState.blocked TaskState.blocked TaskState.ready TaskState.ready e) cur ∧
    (List.range (readyRound (mkTable5 TaskState.blocked TaskState.blocked TaskState.ready TaskState.ready e) cur).length).map
        (fun m => selIter (mkTable5 TaskState.blocked TaskState.blocked TaskState.ready TaskState.ready e) cur (m + 1))
      = readyRound (mkTable5 TaskState.blocked TaskState.blocked TaskState.ready TaskState.ready e) cur := by
  intro e cur
  cases e <;> fin_cases cur <;> decide

lemma srr_aux13 : ∀ (e : TaskState) (cur : Fin 5),
    update_current_task (mkTable5 TaskState.blocked TaskState.blocked TaskState.ready TaskState.blocked e) cur = selectSpec (mkTable5 TaskState.blocked TaskState.blocked TaskState.ready TaskState.blocked e) cur ∧
    (List.range (readyRound (mkTable5 TaskState.blocked TaskState.blocked TaskState.ready TaskState.blocked e) cur).length).map
        (fun m => selIter (mkTable5 TaskState.blocked TaskState.blocked TaskState.ready TaskState.blocked e) cur (m + 1))
      = readyRound (mkTable5 TaskState.blocked TaskState.blocked TaskState.ready TaskState.blocked e) cur := by
  intro e cur
  cases e <;> fin_cases cur <;> decide

lemma srr_aux14 : ∀ (e : TaskState) (cur : Fin 5),
    update_current_task (mkTable5 TaskState.blocked TaskState.blocked TaskState.blocked TaskState.ready e) cur = selectSpec (mkTable5 TaskState.blocked TaskState.blocked TaskState.blocked TaskState.ready e) cur ∧
    (List.range (readyRound (mkTable5 TaskState.blocked TaskState.blocked TaskState.blocked TaskState.ready e) cur).length).map
        (fun m => selIter (mkTable5 TaskState.blocked TaskState.blocked TaskState.blocked TaskState.ready e) cur (m + 1))
      = readyRound (mkTable5 TaskState.blocked TaskState.blocked TaskState.blocked TaskState.ready e) cur := by
  intro e cur
  cases e <;> fin_cases cur <;> decide

lemma srr_aux15 : ∀ (e : TaskState) (cur : Fin 5),
    update_current_task (mkTable5 TaskState.blocked TaskState.blocked TaskState.blocked TaskState.blocked e) cur = selectSpec (mkTable5 TaskState.blocked TaskState.blocked TaskState.blocked TaskState.blocked e) cur ∧
    (List.range (readyRound (mkTable5 TaskState.blocked TaskState.blocked TaskState.blocked TaskState.blocked e) cur).length).map
        (fun m => selIter (mkTable5 TaskState.blocked TaskState.blocked TaskState.blocked TaskState.blocked e) cur (m + 1))
      = readyRound (mkTable5 TaskState.blocked TaskState.blocked TaskState.blocked TaskState.blocked e) cur := by
  intro e cur
  cases e <;> fin_cases cur <;> decide

lemma select_round_robin_decide : ∀ (a b c d e : TaskState) (cur : Fin 5),
    update_current_task (mkTable5 a b c d e) cur = selectSpec (mkTable5 a b c d e) cur ∧
    (List.range (readyRound (mkTable5 a b c d e) cur).length).map
        (fun m => selIter (mkTable5 a b c d e) cur (m + 1))
      = readyRound (mkTable5 a b c d e) cur := by
  intro a b c d e cur
  cases a <;> cases b <;> cases c <;> cases d
  · exact srr_aux0 e cur
  · exact srr_aux1 e cur
  · exact srr_aux2 e cur
  · exact srr_aux3 e cur
  · exact srr_aux4 e cur
  · exact srr_aux5 e cur
  · exact srr_aux6 e cur
  · exact srr_aux7 e cur
  · exact srr_aux8 e cur
  · exact srr_aux9 e cur
  · exact srr_aux10 e cur
  · exact srr_aux11 e cur
  · exact srr_aux12 e cur
  · exact srr_aux13 e cur
  · exact srr_aux14 e cur
  · exact srr_aux15 e cur

-- -----------------------------------------------------------------------------
-- C1
-- -----------------------------------------------------------------------------

/-- C1: for every TCB table and every current index, `update_current_task`
selects exactly the first index of the circular scan current+1, ..,
current+5 (mod 5) that is READY and not idle (the spec's selection rule),
and with a fixed table (no task ever blocking) the iterated selections
visit the non-idle READY tasks exactly once per revolution, in index order
starting after the current task. -/
theorem scheduler_selection_round_robin (tasks : Fin 5 → TCB) (cur : Fin 5) :
    update_current_task tasks cur = selectSpec tasks cur ∧
    (List.range (readyRound tasks cur).length).map (fun m => selIter tasks cur (m + 1))
      = readyRound tasks cur := by
  have h := mkTable5_states tasks
  have base := select_round_robin_decide (tasks 0).current_state (tasks 1).current_state
    (tasks 2).current_state (tasks 3).current_state (tasks 4).current_state cur
  constructor
  · rw [← update_current_task_states _ tasks h cur, ← selectSpec_states _ tasks h cur]
    exact base.1
  · have hsel : (fun m => selIter tasks cur (m + 1))
        = (fun m => selIter (mkTable5 (tasks 0).current_state (tasks 1).current_state
            (tasks 2).current_state (tasks 3).current_state (tasks 4).current_state)
            cur (m + 1)) := by
      funext m
      exact (selIter_states _ tasks h cur (m + 1)).symm
    rw [hsel, ← readyRound_states _ tasks h cur]
    exact base.2

-- -----------------------------------------------------------------------------
-- C6
-- -----------------------------------------------------------------------------

lemma idle_fallback_decide : ∀ (a : TaskState) (cur : Fin 5),
    update_current_task
      (mkTable5 a TaskState.blocked TaskState.blocked TaskState.blocked TaskState.blocked)
      cur = 0 := by
  intro a cur
  cases a <;> fin_cases cur <;> decide

/-- C6: whenever every non-idle task is BLOCKED, the scheduler's selection
lands on the idle index 0, from every starting index. -/
theorem idle_fallback (tasks : Fin 5 → TCB) (cur : Fin 5)
    (h : ∀ i : Fin 5, i ≠ 0 → (tasks i).current_state = TaskState.blocked) :
    update_current_task tasks cur = 0 := by
  have hcong : ∀ i, (mkTable5 (tasks 0).current_state TaskState.blocked
      TaskState.blocked TaskState.blocked TaskState.blocked i).current_state
      = (tasks i).current_state := by
    intro i
    fin_cases i
    · rfl
    · exact (h 1 (by decide)).symm
    · exact (h 2 (by decide)).symm
    · exact (h 3 (by decide)).symm
    · exact (h 4 (by decide)).symm
  rw [← update_current_task_states _ tasks hcong cur]
  exact idle_fallback_decide (tasks 0).current_state cur

theorem idle_fallback_witness : update_current_task sampleBlockedTasks 3 = 0 :=
  idle_fallback sampleBlockedTasks 3 (by decide)

-- -----------------------------------------------------------------------------
-- C10
-- -----------------------------------------------------------------------------

lemma led_on_testBit (n v j : Nat) :
    (led_on n v).testBit j = (v.testBit j || decide (n = j)) := by
  unfold led_on
  rw [Nat.shiftLeft_eq, one_mul]
  simp [Nat.testBit_two_pow]

lemma led_off_testBit (n v j : Nat) (hn : n < 32) :
    (led_off n v).testBit j = (v.testBit j && (decide (j < 32) && !decide (n = j))) := by
  unfold led_off
  have h4 : (0xFFFFFFFF : Nat) = 2 ^ 32 - 1 := by norm_num
  rw [h4, Nat.shiftLeft_eq, one_mul]
  simp only [Nat.testBit_and, Nat.testBit_xor, Nat.testBit_two_pow_sub_one,
    Nat.testBit_two_pow]
  by_cases hjn : n = j
  · subst hjn
    simp [hn]
  · by_cases hj32 : j < 32
    · simp [hjn, hj32]
    · simp [hjn, hj32]

/-- C10 counterexample: with bit 12 (the green LED) already set in the
output data register, `led_on 12` then `led_off 12` does not restore the
register's original value, refuting the restore clause of the claim for
arbitrary prior register values. -/
theorem led_on_off_not_restoring_cex : led_off 12 (led_on 12 4096) ≠ 4096 := by decide

/-- C10 (amended): `led_on n` sets bit n and changes no other bit of the
register; `led_off n` clears bit n and changes no other bit; and when bit n
was clear beforehand, `led_off n` after `led_on n` restores the register's
original value. -/
theorem led_bit_isolation (v n : Nat) (hv : v < U32_MOD) (hn : n < 32) :
    (led_on n v).testBit n = true ∧
    (∀ j, j ≠ n → (led_on n v).testBit j = v.testBit j) ∧
    (led_off n v).testBit n = false ∧
    (∀ j, j ≠ n → (led_off n v).testBit j = v.testBit j) ∧
    (v.testBit n = false → led_off n (led_on n v) = v) := by
  have hvpow : v < 2 ^ 32 := by
    rw [show (2 : Nat) ^ 32 = U32_MOD from by norm_num [U32_MOD]]
    exact hv
  have hhigh : ∀ j, ¬ j < 32 → v.testBit j = false := fun j hj =>
    Nat.testBit_lt_two_pow
      (lt_of_lt_of_le hvpow (Nat.pow_le_pow_right (by norm_num) (by omega)))
  refine ⟨?_, ?_, ?_, ?_, ?_⟩
  · rw [led_on_testBit]
    simp
  · intro j hj
    rw [led_on_testBit]
    simp [Ne.symm hj]
  · rw [led_off_testBit n v n hn]
    simp
  · intro j hj
    rw [led_off_testBit n v j hn]
    by_cases hj32 : j < 32
    · simp [hj32, Ne.symm hj]
    · simp [hj32, hhigh j hj32]
  · intro hb
    apply Nat.eq_of_testBit_eq
    intro j
    rw [led_off_testBit n _ j hn, led_on_testBit]
    by_cases hjn : j = n
    · subst hjn
      simp [hb]
    · by_cases hj32 : j < 32
      · simp [hj32, Ne.symm hjn]
      · simp [hj32, hhigh j hj32]

theorem led_bit_isolation_witness :
    (led_on 12 0).testBit 12 = true ∧ led_off 12 (led_on 12 0) = 0 :=
  ⟨(led_bit_isolation 0 12 (by decide) (by decide)).1,
   (led_bit_isolation 0 12 (by decide) (by decide)).2.2.2.2 (by decide)⟩

-- -----------------------------------------------------------------------------
-- C5
-- -----------------------------------------------------------------------------

lemma unblock_blocked_cases (tasks : Fin 5 → TCB) (g : Nat) (i : Fin 5)
    (h : (tasks i).current_state = TaskState.blocked) :
    unblock_tasks tasks g i =
      (if (tasks i).block_count = g
       then { tasks i with current_state := TaskState.ready } else tasks i) := by
  unfold unblock_tasks
  simp [h]

lemma delay_iter_invariant (s : SchedState) (D : Nat) (hD : 0 < D)
    (hlt : s.g_tick_count + D < U32_MOD) :
    ∀ k, k ≤ D →
      (SysTick_Handler^[k] (task_delay D s)).g_tick_count = s.g_tick_count + k ∧
      ((SysTick_Handler^[k] (task_delay D s)).user_tasks s.current_task).block_count
        = s.g_tick_count + D ∧
      ((SysTick_Handler^[k] (task_delay D s)).user_tasks s.current_task).current_state
        = (if k < D then TaskState.blocked else TaskState.ready) := by
  intro k
  induction k with
  | zero =>
      intro _
      refine ⟨by simp [task_delay, schedule], ?_, ?_⟩
      · simp only [Function.iterate_zero, id_eq, task_delay, schedule,
          Function.update_same]
        simp only [U32_MOD] at hlt ⊢
        omega
      · simp [task_delay, schedule, Function.update_same, hD]
  | succ k ih =>
      intro hk1
      have hkD : k < D := by omega
      obtain ⟨hg, hbc, hst⟩ := ih (by omega)
      have hstb : ((SysTick_Handler^[k] (task_delay D s)).user_tasks
          s.current_task).current_state = TaskState.blocked := by
        rw [hst]
        simp [hkD]
      rw [Function.iterate_succ_apply']
      have hgv : update_global_tick_count
          (SysTick_Handler^[k] (task_delay D s)).g_tick_count
          = s.g_tick_count + k + 1 := by
        simp only [update_global_tick_count, hg, U32_MOD]
        simp only [U32_MOD] at hlt
        omega
      have hcur : (SysTick_Handler (SysTick_Handler^[k] (task_delay D s))).user_tasks
          s.current_task
          = unblock_tasks (SysTick_Handler^[k] (task_delay D s)).user_tasks
              (update_global_tick_count
                (SysTick_Handler^[k] (task_delay D s)).g_tick_count)
              s.current_task := rfl
    -- the new counter value and the unblock decision
      refine ⟨?_, ?_, ?_⟩
      · show update_global_tick_count
            (SysTick_Handler^[k] (task_delay D s)).g_tick_count = _
        rw [hgv]
        omega
      · rw [hcur, unblock_block_count, hbc]
      · rw [hcur, unblock_blocked_cases _ _ _ hstb, hbc, hgv]
        by_cases hE : s.g_tick_count + D = s.g_tick_count + k + 1
        · have hDk : k + 1 = D := by omega
          simp [hE, hDk]
        · have hlt2 : k + 1 < D := by omega
          simp [hE, hstb, hlt2]

/-- C5: a task that blocks via `task_delay D` (D positive) at tick T is set
READY by the tick-handler firing that brings the counter to exactly T+D:
every earlier firing leaves it BLOCKED, and the D-th firing wakes it. -/
theorem delay_wakes_exactly (s : SchedState) (D : Nat) (hD : 0 < D)
    (hlt : s.g_tick_count + D < U32_MOD) :
    (∀ k, k < D →
      ((SysTick_Handler^[k] (task_delay D s)).user_tasks s.current_task).current_state
        = TaskState.blocked) ∧
    ((SysTick_Handler^[D] (task_delay D s)).user_tasks s.current_task).current_state
      = TaskState.ready := by
  constructor
  · intro k hk
    have h := (delay_iter_invariant s D hD hlt k (by omega)).2.2
    rw [h]
    simp [hk]
  · have h := (delay_iter_invariant s D hD hlt D (le_refl D)).2.2
    rw [h]
    simp

theorem delay_wakes_exactly_witness :
    ((SysTick_Handler^[1] (task_delay 2 sampleState)).user_tasks
        sampleState.current_task).current_state = TaskState.blocked ∧
    ((SysTick_Handler^[2] (task_delay 2 sampleState)).user_tasks
        sampleState.current_task).current_state = TaskState.ready :=
  ⟨(delay_wakes_exactly sampleState 2 (by decide) (by decide)).1 1 (by decide),
   (delay_wakes_exactly sampleState 2 (by decide) (by decide)).2⟩

-- -----------------------------------------------------------------------------
-- C7
-- -----------------------------------------------------------------------------

/-- C7: in every state reachable from initialization by tick firings,
context switches and user-task Delay calls, the idle task's TCB (index 0)
is READY; no operation ever blocks it. -/
theorem idle_always_ready (hdl : Fin 5 → Nat) (mem0 : Nat → Nat) (s : SchedState)
    (h : Reachable hdl mem0 s) :
    (s.user_tasks 0).current_state = TaskState.ready := by
  induction h with
  | init => rfl
  | tick s h ih =>
      show (unblock_tasks s.user_tasks
        (update_global_tick_count s.g_tick_count) 0).current_state = TaskState.ready
      rw [unblock_preserves_ready _ _ _ ih]
      exact ih
  | switch s psp h ih =>
      show (Function.update s.user_tasks s.current_task
        { s.user_tasks s.current_task with psp_value := psp } 0).current_state
        = TaskState.ready
      by_cases hc : s.current_task = 0
      · rw [← hc, Function.update_same]
        show (s.user_tasks s.current_task).current_state = TaskState.ready
        rw [hc]
        exact ih
      · rw [Function.update_noteq (fun hh => hc hh.symm)]
        exact ih
  | delay s d h hne ih =>
      show (Function.update s.user_tasks s.current_task
        { s.user_tasks s.current_task with
            block_count := (s.g_tick_count + d) % U32_MOD,
            current_state := TaskState.blocked } 0).current_state = TaskState.ready
      rw [Function.update_noteq (Ne.symm hne)]
      exact ih

theorem idle_always_ready_witness :
    ((initState (fun _ => 0) (fun _ => 0)).user_tasks 0).current_state
      = TaskState.ready :=
  idle_always_ready (fun _ => 0) (fun _ => 0) _ Reachable.init

-- -----------------------------------------------------------------------------
-- C8
-- -----------------------------------------------------------------------------

-- Reading each word of one fabricated frame, one lemma per slot: peel the
-- outer stores (distinct addresses) down to the one that wrote the slot.

lemma init_task_frame_r4 (mem : Nat → Nat) (top hdl : Nat) (h64 : 64 ≤ top) :
    (init_task_frame mem top hdl).1 (top - 4) = DUMMY_XPSR := by
  change (Function.update _ (top - 64) 0 : Nat → Nat) (top - 4) = DUMMY_XPSR
  rw [Function.update_noteq (show top - 4 ≠ top - 64 by omega)]
  change (Function.update _ (top - 60) 0 : Nat → Nat) (top - 4) = DUMMY_XPSR
  rw [Function.update_noteq (show top - 4 ≠ top - 60 by omega)]
  change (Function.update _ (top - 56) 0 : Nat → Nat) (top - 4) = DUMMY_XPSR
  rw [Function.update_noteq (show top - 4 ≠ top - 56 by omega)]
  change (Function.update _ (top - 52) 0 : Nat → Nat) (top - 4) = DUMMY_XPSR
  rw [Function.update_noteq (show top - 4 ≠ top - 52 by omega)]
  change (Function.update _ (top - 48) 0 : Nat → Nat) (top - 4) = DUMMY_XPSR
  rw [Function.update_noteq (show top - 4 ≠ top - 48 by omega)]
  change (Function.update _ (top - 44) 0 : Nat → Nat) (top - 4) = DUMMY_XPSR
  rw [Function.update_noteq (show top - 4 ≠ top - 44 by omega)]
  change (Function.update _ (top - 40) 0 : Nat → Nat) (top - 4) = DUMMY_XPSR
  rw [Function.update_noteq (show top - 4 ≠ top - 40 by omega)]
  change (Function.update _ (top - 36) 0 : Nat → Nat) (top - 4) = DUMMY_XPSR
  rw [Function.update_noteq (show top - 4 ≠ top - 36 by omega)]
  change (Function.update _ (top - 32) 0 : Nat → Nat) (top - 4) = DUMMY_XPSR
  rw [Function.update_noteq (show top - 4 ≠ top - 32 by omega)]
  change (Function.update _ (top - 28) 0 : Nat → Nat) (top - 4) = DUMMY_XPSR
  rw [Function.update_noteq (show top - 4 ≠ top - 28 by omega)]
  change (Function.update _ (top - 24) 0 : Nat → Nat) (top - 4) = DUMMY_XPSR
  rw [Function.update_noteq (show top - 4 ≠ top - 24 by omega)]
  change (Function.update _ (top - 20) 0 : Nat → Nat) (top - 4) = DUMMY_XPSR
  rw [Function.update_noteq (show top - 4 ≠ top - 20 by omega)]
  change (Function.update _ (top - 16) 0 : Nat → Nat) (top - 4) = DUMMY_XPSR
  rw [Function.update_noteq (show top - 4 ≠ top - 16 by omega)]
  change (Function.update _ (top - 12) 0xFFFFFFFD : Nat → Nat) (top - 4) = DUMMY_XPSR
  rw [Function.update_noteq (show top - 4 ≠ top - 12 by omega)]
  change (Function.update _ (top - 8) hdl : Nat → Nat) (top - 4) = DUMMY_XPSR
  rw [Function.update_noteq (show top - 4 ≠ top - 8 by omega)]
  change (Function.update _ (top - 4) DUMMY_XPSR : Nat → Nat) (top - 4) = DUMMY_XPSR
  rw [Function.update_same]

lemma init_task_frame_r8 (mem : Nat → Nat) (top hdl : Nat) (h64 : 64 ≤ top) :
    (init_task_frame mem top hdl).1 (top - 8) = hdl := by
  change (Function.update _ (top - 64) 0 : Nat → Nat) (top - 8) = hdl
  rw [Function.update_noteq (show top - 8 ≠ top - 64 by omega)]
  change (Function.update _ (top - 60) 0 : Nat → Nat) (top - 8) = hdl
  rw [Function.update_noteq (show top - 8 ≠ top - 60 by omega)]
  change (Function.update _ (top - 56) 0 : Nat → Nat) (top - 8) = hdl
  rw [Function.update_noteq (show top - 8 ≠ top - 56 by omega)]
  change (Function.update _ (top - 52) 0 : Nat → Nat) (top - 8) = hdl
  rw [Function.update_noteq (show top - 8 ≠ top - 52 by omega)]
  change (Function.update _ (top - 48) 0 : Nat → Nat) (top - 8) = hdl
  rw [Function.update_noteq (show top - 8 ≠ top - 48 by omega)]
  change (Function.update _ (top - 44) 0 : Nat → Nat) (top - 8) = hdl
  rw [Function.update_noteq (show top - 8 ≠ top - 44 by omega)]
  change (Function.update _ (top - 40) 0 : Nat → Nat) (top - 8) = hdl
  rw [Function.update_noteq (show top - 8 ≠ top - 40 by omega)]
  change (Function.update _ (top - 36) 0 : Nat → Nat) (top - 8) = hdl
  rw [Function.update_noteq (show top - 8 ≠ top - 36 by omega)]
  change (Function.update _ (top - 32) 0 : Nat → Nat) (top - 8) = hdl
  rw [Function.update_noteq (show top - 8 ≠ top - 32 by omega)]
  change (Function.update _ (top - 28) 0 : Nat → Nat) (top - 8) = hdl
  rw [Function.update_noteq (show top - 8 ≠ top - 28 by omega)]
  change (Function.update _ (top - 24) 0 : Nat → Nat) (top - 8) = hdl
  rw [Function.update_noteq (show top - 8 ≠ top - 24 by omega)]
  change (Function.update _ (top - 20) 0 : Nat → Nat) (top - 8) = hdl
  rw [Function.update_noteq (show top - 8 ≠ top - 20 by omega)]
  change (Function.update _ (top - 16) 0 : Nat → Nat) (top - 8) = hdl
  rw [Function.update_noteq (show top - 8 ≠ top - 16 by omega)]
  change (Function.update _ (top - 12) 0xFFFFFFFD : Nat → Nat) (top - 8) = hdl
  rw [Function.update_noteq (show top - 8 ≠ top - 12 by omega)]
  change (Function.update _ (top - 8) hdl : Nat → Nat) (top - 8) = hdl
  rw [Function.update_same]

lemma init_task_frame_r12 (mem : Nat → Nat) (top hdl : Nat) (h64 : 64 ≤ top) :
    (init_task_frame mem top hdl).1 (top - 12) = 0xFFFFFFFD := by
  change (Function.update _ (top - 64) 0 : Nat → Nat) (top - 12) = 0xFFFFFFFD
  rw [Function.update_noteq (show top - 12 ≠ top - 64 by omega)]
  change (Function.update _ (top - 60) 0 : Nat → Nat) (top - 12) = 0xFFFFFFFD
  rw [Function.update_noteq (show top - 12 ≠ top - 60 by omega)]
  change (Function.update _ (top - 56) 0 : Nat → Nat) (top - 12) = 0xFFFFFFFD
  rw [Function.update_noteq (show top - 12 ≠ top - 56 by omega)]
  change (Function.update _ (top - 52) 0 : Nat → Nat) (top - 12) = 0xFFFFFFFD
  rw [Function.update_noteq (show top - 12 ≠ top - 52 by omega)]
  change (Function.update _ (top - 48) 0 : Nat → Nat) (top - 12) = 0xFFFFFFFD
  rw [Function.update_noteq (show top - 12 ≠ top - 48 by omega)]
  change (Function.update _ (top - 44) 0 : Nat → Nat) (top - 12) = 0xFFFFFFFD
  rw [Function.update_noteq (show top - 12 ≠ top - 44 by omega)]
  change (Function.update _ (top - 40) 0 : Nat → Nat) (top - 12) = 0xFFFFFFFD
  rw [Function.update_noteq (show top - 12 ≠ top - 40 by omega)]
  change (Function.update _ (top - 36) 0 : Nat → Nat) (top - 12) = 0xFFFFFFFD
  rw [Function.update_noteq (show top - 12 ≠ top - 36 by omega)]
  change (Function.update _ (top - 32) 0 : Nat → Nat) (top - 12) = 0xFFFFFFFD
  rw [Function.update_noteq (show top - 12 ≠ top - 32 by omega)]
  change (Function.update _ (top - 28) 0 : Nat → Nat) (top - 12) = 0xFFFFFFFD
  rw [Function.update_noteq (show top - 12 ≠ top - 28 by omega)]
  change (Function.update _ (top - 24) 0 : Nat → Nat) (top - 12) = 0xFFFFFFFD
  rw [Function.update_noteq (show top - 12 ≠ top - 24 by omega)]
  change (Function.update _ (top - 20) 0 : Nat → Nat) (top - 12) = 0xFFFFFFFD
  rw [Function.update_noteq (show top - 12 ≠ top - 20 by omega)]
  change (Function.update _ (top - 16) 0 : Nat → Nat) (top - 12) = 0xFFFFFFFD
  rw [Function.update_noteq (show top - 12 ≠ top - 16 by omega)]
  change (Function.update _ (top - 12) 0xFFFFFFFD : Nat → Nat) (top - 12) = 0xFFFFFFFD
  rw [Function.update_same]

lemma init_task_frame_r16 (mem : Nat → Nat) (top hdl : Nat) (h64 : 64 ≤ top) :
    (init_task_frame mem top hdl).1 (top - 16) = 0 := by
  change (Function.update _ (top - 64) 0 : Nat → Nat) (top - 16) = 0
  rw [Function.update_noteq (show top - 16 ≠ top - 64 by omega)]
  change (Function.update _ (top - 60) 0 : Nat → Nat) (top - 16) = 0
  rw [Function.update_noteq (show top - 16 ≠ top - 60 by omega)]
  change (Function.update _ (top - 56) 0 : Nat → Nat) (top - 16) = 0
  rw [Function.update_noteq (show top - 16 ≠ top - 56 by omega)]
  change (Function.update _ (top - 52) 0 : Nat → Nat) (top - 16) = 0
  rw [Function.update_noteq (show top - 16 ≠ top - 52 by omega)]
  change (Function.update _ (top - 48) 0 : Nat → Nat) (top - 16) = 0
  rw [Function.update_noteq (show top - 16 ≠ top - 48 by omega)]
  change (Function.update _ (top - 44) 0 : Nat → Nat) (top - 16) = 0
  rw [Function.update_noteq (show top - 16 ≠ top - 44 by omega)]
  change (Function.update _ (top - 40) 0 : Nat → Nat) (top - 16) = 0
  rw [Function.update_noteq (show top - 16 ≠ top - 40 by omega)]
  change (Function.update _ (top - 36) 0 : Nat → Nat) (top - 16) = 0
  rw [Function.update_noteq (show top - 16 ≠ top - 36 by omega)]
  change (Function.update _ (top - 32) 0 : Nat → Nat) (top - 16) = 0
  rw [Function.update_noteq (show top - 16 ≠ top - 32 by omega)]
  change (Function.update _ (top - 28) 0 : Nat → Nat) (top - 16) = 0
  rw [Function.update_noteq (show top - 16 ≠ top - 28 by omega)]
  change (Function.update _ (top - 24) 0 : Nat → Nat) (top - 16) = 0
  rw [Function.update_noteq (show top - 16 ≠ top - 24 by omega)]
  change (Function.update _ (top - 20) 0 : Nat → Nat) (top - 16) = 0
  rw [Function.update_noteq (show top - 16 ≠ top - 20 by omega)]
  change (Function.update _ (top - 16) 0 : Nat → Nat) (top - 16) = 0
  rw [Function.update_same]

lemma init_task_frame_r20 (mem : Nat → Nat) (top hdl : Nat) (h64 : 64 ≤ top) :
    (init_task_frame mem top hdl).1 (top - 20) = 0 := by
  change (Function.update _ (top - 64) 0 : Nat → Nat) (top - 20) = 0
  rw [Function.update_noteq (show top - 20 ≠ top - 64 by omega)]
  change (Function.update _ (top - 60) 0 : Nat → Nat) (top - 20) = 0
  rw [Function.update_noteq (show top - 20 ≠ top - 60 by omega)]
  change (Function.update _ (top - 56) 0 : Nat → Nat) (top - 20) = 0
  rw [Function.update_noteq (show top - 20 ≠ top - 56 by omega)]
  change (Function.update _ (top - 52) 0 : Nat → Nat) (top - 20) = 0
  rw [Function.update_noteq (show top - 20 ≠ top - 52 by omega)]
  change (Function.update _ (top - 48) 0 : Nat → Nat) (top - 20) = 0
  rw [Function.update_noteq (show top - 20 ≠ top - 48 by omega)]
  change (Function.update _ (top - 44) 0 : Nat → Nat) (top - 20) = 0
  rw [Function.update_noteq (show top - 20 ≠ top - 44 by omega)]
  change (Function.update _ (top - 40) 0 : Nat → Nat) (top - 20) = 0
  rw [Function.update_noteq (show top - 20 ≠ top - 40 by omega)]
  change (Function.update _ (top - 36) 0 : Nat → Nat) (top - 20) = 0
  rw [Function.update_noteq (show top - 20 ≠ top - 36 by omega)]
  change (Function.update _ (top - 32) 0 : Nat → Nat) (top - 20) = 0
  rw [Function.update_noteq (show top - 20 ≠ top - 32 by omega)]
  change (Function.update _ (top - 28) 0 : Nat → Nat) (top - 20) = 0
  rw [Function.update_noteq (show top - 20 ≠ top - 28 by omega)]
  change (Function.update _ (top - 24) 0 : Nat → Nat) (top - 20) = 0
  rw [Function.update_noteq (show top - 20 ≠ top - 24 by omega)]
  change (Function.update _ (top - 20) 0 : Nat → Nat) (top - 20) = 0
  rw [Function.update_same]

lemma init_task_frame_r24 (mem : Nat → Nat) (top hdl : Nat) (h64 : 64 ≤ top) :
    (init_task_frame mem top hdl).1 (top - 24) = 0 := by
  change (Function.update _ (top - 64) 0 : Nat → Nat) (top - 24) = 0
  rw [Function.update_noteq (show top - 24 ≠ top - 64 by omega)]
  change (Function.update _ (top - 60) 0 : Nat → Nat) (top - 24) = 0
  rw [Function.update_noteq (show top - 24 ≠ top - 60 by omega)]
  change (Function.update _ (top - 56) 0 : Nat → Nat) (top - 24) = 0
  rw [Function.update_noteq (show top - 24 ≠ top - 56 by omega)]
  change (Function.update _ (top - 52) 0 : Nat → Nat) (top - 24) = 0
  rw [Function.update_noteq (show top - 24 ≠ top - 52 by omega)]
  change (Function.update _ (top - 48) 0 : Nat → Nat) (top - 24) = 0
  rw [Function.update_noteq (show top - 24 ≠ top - 48 by omega)]
  change (Function.update _ (top - 44) 0 : Nat → Nat) (top - 24) = 0
  rw [Function.update_noteq (show top - 24 ≠ top - 44 by omega)]
  change (Function.update _ (top - 40) 0 : Nat → Nat) (top - 24) = 0
  rw [Function.update_noteq (show top - 24 ≠ top - 40 by omega)]
  change (Function.update _ (top - 36) 0 : Nat → Nat) (top - 24) = 0
  rw [Function.update_noteq (show top - 24 ≠ top - 36 by omega)]
  change (Function.update _ (top - 32) 0 : Nat → Nat) (top - 24) = 0
  rw [Function.update_noteq (show top - 24 ≠ top - 32 by omega)]
  change (Function.update _ (top - 28) 0 : Nat → Nat) (top - 24) = 0
  rw [Function.update_noteq (show top - 24 ≠ top - 28 by omega)]
  change (Function.update _ (top - 24) 0 : Nat → Nat) (top - 24) = 0
  rw [Function.update_same]

lemma init_task_frame_r28 (mem : Nat → Nat) (top hdl : Nat) (h64 : 64 ≤ top) :
    (init_task_frame mem top hdl).1 (top - 28) = 0 := by
  change (Function.update _ (top - 64) 0 : Nat → Nat) (top - 28) = 0
  rw [Function.update_noteq (show top - 28 ≠ top - 64 by omega)]
  change (Function.update _ (top - 60) 0 : Nat → Nat) (top - 28) = 0
  rw [Function.update_noteq (show top - 28 ≠ top - 60 by omega)]
  change (Function.update _ (top - 56) 0 : Nat → Nat) (top - 28) = 0
  rw [Function.update_noteq (show top - 28 ≠ top - 56 by omega)]
  change (Function.update _ (top - 52) 0 : Nat → Nat) (top - 28) = 0
  rw [Function.update_noteq (show top - 28 ≠ top - 52 by omega)]
  change (Function.update _ (top - 48) 0 : Nat → Nat) (top - 28) = 0
  rw [Function.update_noteq (show top - 28 ≠ top - 48 by omega)]
  change (Function.update _ (top - 44) 0 : Nat → Nat) (top - 28) = 0
  rw [Function.update_noteq (show top - 28 ≠ top - 44 by omega)]
  change (Function.update _ (top - 40) 0 : Nat → Nat) (top - 28) = 0
  rw [Function.update_noteq (show top - 28 ≠ top - 40 by omega)]
  change (Function.update _ (top - 36) 0 : Nat → Nat) (top - 28) = 0
  rw [Function.update_noteq (show top - 28 ≠ top - 36 by omega)]
  change (Function.update _ (top - 32) 0 : Nat → Nat) (top - 28) = 0
  rw [Function.update_noteq (show top - 28 ≠ top - 32 by omega)]
  change (Function.update _ (top - 28) 0 : Nat → Nat) (top - 28) = 0
  rw [Function.update_same]

lemma init_task_frame_r32 (mem : Nat → Nat) (top hdl : Nat) (h64 : 64 ≤ top) :
    (init_task_frame mem top hdl).1 (top - 32) = 0 := by
  change (Function.update _ (top - 64) 0 : Nat → Nat) (top - 32) = 0
  rw [Function.update_noteq (show top - 32 ≠ top - 64 by omega)]
  change (Function.update _ (top - 60) 0 : Nat → Nat) (top - 32) = 0
  rw [Function.update_noteq (show top - 32 ≠ top - 60 by omega)]
  change (Function.update _ (top - 56) 0 : Nat → Nat) (top - 32) = 0
  rw [Function.update_noteq (show top - 32 ≠ top - 56 by omega)]
  change (Function.update _ (top - 52) 0 : Nat → Nat) (top - 32) = 0
  rw [Function.update_noteq (show top - 32 ≠ top - 52 by omega)]
  change (Function.update _ (top - 48) 0 : Nat → Nat) (top - 32) = 0
  rw [Function.update_noteq (show top - 32 ≠ top - 48 by omega)]
  change (Function.update _ (top - 44) 0 : Nat → Nat) (top - 32) = 0
  rw [Function.update_noteq (show top - 32 ≠ top - 44 by omega)]
  change (Function.update _ (top - 40) 0 : Nat → Nat) (top - 32) = 0
  rw [Function.update_noteq (show top - 32 ≠ top - 40 by omega)]
  change (Function.update _ (top - 36) 0 : Nat → Nat) (top - 32) = 0
  rw [Function.update_noteq (show top - 32 ≠ top - 36 by omega)]
  change (Function.update _ (top - 32) 0 : Nat → Nat) (top - 32) = 0
  rw [Function.update_same]

lemma init_task_frame_r36 (mem : Nat → Nat) (top hdl : Nat) (h64 : 64 ≤ top) :
    (init_task_frame mem top hdl).1 (top - 36) = 0 := by
  change (Function.update _ (top - 64) 0 : Nat → Nat) (top - 36) = 0
  rw [Function.update_noteq (show top - 36 ≠ top - 64 by omega)]
  change (Function.update _ (top - 60) 0 : Nat → Nat) (top - 36) = 0
  rw [Function.update_noteq (show top - 36 ≠ top - 60 by omega)]
  change (Function.update _ (top - 56) 0 : Nat → Nat) (top - 36) = 0
  rw [Function.update_noteq (show top - 36 ≠ top - 56 by omega)]
  change (Function.update _ (top - 52) 0 : Nat → Nat) (top - 36) = 0
  rw [Function.update_noteq (show top - 36 ≠ top - 52 by omega)]
  change (Function.update _ (top - 48) 0 : Nat → Nat) (top - 36) = 0
  rw [Function.update_noteq (show top - 36 ≠ top - 48 by omega)]
  change (Function.update _ (top - 44) 0 : Nat → Nat) (top - 36) = 0
  rw [Function.update_noteq (show top - 36 ≠ top - 44 by omega)]
  change (Function.update _ (top - 40) 0 : Nat → Nat) (top - 36) = 0
  rw [Function.update_noteq (show top - 36 ≠ top - 40 by omega)]
  change (Function.update _ (top - 36) 0 : Nat → Nat) (top - 36) = 0
  rw [Function.update_same]

lemma init_task_frame_r40 (mem : Nat → Nat) (top hdl : Nat) (h64 : 64 ≤ top) :
    (init_task_frame mem top hdl).1 (top - 40) = 0 := by
  change (Function.update _ (top - 64) 0 : Nat → Nat) (top - 40) = 0
  rw [Function.update_noteq (show top - 40 ≠ top - 64 by omega)]
  change (Function.update _ (top - 60) 0 : Nat → Nat) (top - 40) = 0
  rw [Function.update_noteq (show top - 40 ≠ top - 60 by omega)]
  change (Function.update _ (top - 56) 0 : Nat → Nat) (top - 40) = 0
  rw [Function.update_noteq (show top - 40 ≠ top - 56 by omega)]
  change (Function.update _ (top - 52) 0 : Nat → Nat) (top - 40) = 0
  rw [Function.update_noteq (show top - 40 ≠ top - 52 by omega)]
  change (Function.update _ (top - 48) 0 : Nat → Nat) (top - 40) = 0
  rw [Function.update_noteq (show top - 40 ≠ top - 48 by omega)]
  change (Function.update _ (top - 44) 0 : Nat → Nat) (top - 40) = 0
  rw [Function.update_noteq (show top - 40 ≠ top - 44 by omega)]
  change (Function.update _ (top - 40) 0 : Nat → Nat) (top - 40) = 0
  rw [Function.update_same]

lemma init_task_frame_r44 (mem : Nat → Nat) (top hdl : Nat) (h64 : 64 ≤ top) :
    (init_task_frame mem top hdl).1 (top - 44) = 0 := by
  change (Function.update _ (top - 64) 0 : Nat → Nat) (top - 44) = 0
  rw [Function.update_noteq (show top - 44 ≠ top - 64 by omega)]
  change (Function.update _ (top - 60) 0 : Nat → Nat) (top - 44) = 0
  rw [Function.update_noteq (show top - 44 ≠ top - 60 by omega)]
  change (Function.update _ (top - 56) 0 : Nat → Nat) (top - 44) = 0
  rw [Function.update_noteq (show top - 44 ≠ top - 56 by omega)]
  change (Function.update _ (top - 52) 0 : Nat → Nat) (top - 44) = 0
  rw [Function.update_noteq (show top - 44 ≠ top - 52 by omega)]
  change (Function.update _ (top - 48) 0 : Nat → Nat) (top - 44) = 0
  rw [Function.update_noteq (show top - 44 ≠ top - 48 by omega)]
  change (Function.update _ (top - 44) 0 : Nat → Nat) (top - 44) = 0
  rw [Function.update_same]

lemma init_task_frame_r48 (mem : Nat → Nat) (top hdl : Nat) (h64 : 64 ≤ top) :
    (init_task_frame mem top hdl).1 (top - 48) = 0 := by
  change (Function.update _ (top - 64) 0 : Nat → Nat) (top - 48) = 0
  rw [Function.update_noteq (show top - 48 ≠ top - 64 by omega)]
  change (Function.update _ (top - 60) 0 : Nat → Nat) (top - 48) = 0
  rw [Function.update_noteq (show top - 48 ≠ top - 60 by omega)]
  change (Function.update _ (top - 56) 0 : Nat → Nat) (top - 48) = 0
  rw [Function.update_noteq (show top - 48 ≠ top - 56 by omega)]
  change (Function.update _ (top - 52) 0 : Nat → Nat) (top - 48) = 0
  rw [Function.update_noteq (show top - 48 ≠ top - 52 by omega)]
  change (Function.update _ (top - 48) 0 : Nat → Nat) (top - 48) = 0
  rw [Function.update_same]

lemma init_task_frame_r52 (mem : Nat → Nat) (top hdl : Nat) (h64 : 64 ≤ top) :
    (init_task_frame mem top hdl).1 (top - 52) = 0 := by
  change (Function.update _ (top - 64) 0 : Nat → Nat) (top - 52) = 0
  rw [Function.update_noteq (show top - 52 ≠ top - 64 by omega)]
  change (Function.update _ (top - 60) 0 : Nat → Nat) (top - 52) = 0
  rw [Function.update_noteq (show top - 52 ≠ top - 60 by omega)]
  change (Function.update _ (top - 56) 0 : Nat → Nat) (top - 52) = 0
  rw [Function.update_noteq (show top - 52 ≠ top - 56 by omega)]
  change (Function.update _ (top - 52) 0 : Nat → Nat) (top - 52) = 0
  rw [Function.update_same]

lemma init_task_frame_r56 (mem : Nat → Nat) (top hdl : Nat) (h64 : 64 ≤ top) :
    (init_task_frame mem top hdl).1 (top - 56) = 0 := by
  change (Function.update _ (top - 64) 0 : Nat → Nat) (top - 56) = 0
  rw [Function.update_noteq (show top - 56 ≠ top - 64 by omega)]
  change (Function.update _ (top - 60) 0 : Nat → Nat) (top - 56) = 0
  rw [Function.update_noteq (show top - 56 ≠ top - 60 by omega)]
  change (Function.update _ (top - 56) 0 : Nat → Nat) (top - 56) = 0
  rw [Function.update_same]

lemma init_task_frame_r60 (mem : Nat → Nat) (top hdl : Nat) (h64 : 64 ≤ top) :
    (init_task_frame mem top hdl).1 (top - 60) = 0 := by
  change (Function.update _ (top - 64) 0 : Nat → Nat) (top - 60) = 0
  rw [Function.update_noteq (show top - 60 ≠ top - 64 by omega)]
  change (Function.update _ (top - 60) 0 : Nat → Nat) (top - 60) = 0
  rw [Function.update_same]

lemma init_task_frame_r64 (mem : Nat → Nat) (top hdl : Nat) (_h64 : 64 ≤ top) :
    (init_task_frame mem top hdl).1 (top - 64) = 0 := by
  change (Function.update _ (top - 64) 0 : Nat → Nat) (top - 64) = 0
  rw [Function.update_same]

-- Addresses outside the frame are untouched by one frame construction.
lemma init_task_frame_preserves (mem : Nat → Nat) (top hdl a : Nat) (_h64 : 64 ≤ top)
    (ha : a < top - 64 ∨ top - 4 < a) :
    (init_task_frame mem top hdl).1 a = mem a := by
  change (Function.update _ (top - 64) 0 : Nat → Nat) a = mem a
  rw [Function.update_noteq (show a ≠ top - 64 by omega)]
  change (Function.update _ (top - 60) 0 : Nat → Nat) a = mem a
  rw [Function.update_noteq (show a ≠ top - 60 by omega)]
  change (Function.update _ (top - 56) 0 : Nat → Nat) a = mem a
  rw [Function.update_noteq (show a ≠ top - 56 by omega)]
  change (Function.update _ (top - 52) 0 : Nat → Nat) a = mem a
  rw [Function.update_noteq (show a ≠ top - 52 by omega)]
  change (Function.update _ (top - 48) 0 : Nat → Nat) a = mem a
  rw [Function.update_noteq (show a ≠ top - 48 by omega)]
  change (Function.update _ (top - 44) 0 : Nat → Nat) a = mem a
  rw [Function.update_noteq (show a ≠ top - 44 by omega)]
  change (Function.update _ (top - 40) 0 : Nat → Nat) a = mem a
  rw [Function.update_noteq (show a ≠ top - 40 by omega)]
  change (Function.update _ (top - 36) 0 : Nat → Nat) a = mem a
  rw [Function.update_noteq (show a ≠ top - 36 by omega)]
  change (Function.update _ (top - 32) 0 : Nat → Nat) a = mem a
  rw [Function.update_noteq (show a ≠ top - 32 by omega)]
  change (Function.update _ (top - 28) 0 : Nat → Nat) a = mem a
  rw [Function.update_noteq (show a ≠ top - 28 by omega)]
  change (Function.update _ (top - 24) 0 : Nat → Nat) a = mem a
  rw [Function.update_noteq (show a ≠ top - 24 by omega)]
  change (Function.update _ (top - 20) 0 : Nat → Nat) a = mem a
  rw [Function.update_noteq (show a ≠ top - 20 by omega)]
  change (Function.update _ (top - 16) 0 : Nat → Nat) a = mem a
  rw [Function.update_noteq (show a ≠ top - 16 by omega)]
  change (Function.update _ (top - 12) 0xFFFFFFFD : Nat → Nat) a = mem a
  rw [Function.update_noteq (show a ≠ top - 12 by omega)]
  change (Function.update _ (top - 8) hdl : Nat → Nat) a = mem a
  rw [Function.update_noteq (show a ≠ top - 8 by omega)]
  change (Function.update _ (top - 4) DUMMY_XPSR : Nat → Nat) a = mem a
  rw [Function.update_noteq (show a ≠ top - 4 by omega)]

-- The final RAM of init_tasks_stack agrees with the i-th frame application
-- on the i-th task's frame address range: the other frames are disjoint.

lemma final_mem_task0 (hdl : Fin 5 → Nat) (mem0 : Nat → Nat) (a : Nat)
    (ha : 536997824 ≤ a) (hb : a ≤ 536997884) :
    (init_tasks_stack hdl mem0).2 a = (init_task_frame mem0 536997888 (hdl 0)).1 a := by
  have e : (init_tasks_stack hdl mem0).2 = (init_task_frame (init_task_frame (init_task_frame (init_task_frame (init_task_frame mem0 536997888 (hdl 0)).1 537001984 (hdl 1)).1 537000960 (hdl 2)).1 536999936 (hdl 3)).1 536998912 (hdl 4)).1 := rfl
  rw [e,
    init_task_frame_preserves _ 536998912 _ a (by norm_num) (Or.inl (by omega)),
    init_task_frame_preserves _ 536999936 _ a (by norm_num) (Or.inl (by omega)),
    init_task_frame_preserves _ 537000960 _ a (by norm_num) (Or.inl (by omega)),
    init_task_frame_preserves _ 537001984 _ a (by norm_num) (Or.inl (by omega))]

lemma final_mem_task1 (hdl : Fin 5 → Nat) (mem0 : Nat → Nat) (a : Nat)
    (ha : 537001920 ≤ a) (hb : a ≤ 537001980) :
    (init_tasks_stack hdl mem0).2 a = (init_task_frame (init_task_frame mem0 536997888 (hdl 0)).1 537001984 (hdl 1)).1 a := by
  have e : (init_tasks_stack hdl mem0).2 = (init_task_frame (init_task_frame (init_task_frame (init_task_frame (init_task_frame mem0 536997888 (hdl 0)).1 537001984 (hdl 1)).1 537000960 (hdl 2)).1 536999936 (hdl 3)).1 536998912 (hdl 4)).1 := rfl
  rw [e,
    init_task_frame_preserves _ 536998912 _ a (by norm_num) (Or.inr (by omega)),
    init_task_frame_preserves _ 536999936 _ a (by norm_num) (Or.inr (by omega)),
    init_task_frame_preserves _ 537000960 _ a (by norm_num) (Or.inr (by omega))]

lemma final_mem_task2 (hdl : Fin 5 → Nat) (mem0 : Nat → Nat) (a : Nat)
    (ha : 537000896 ≤ a) (hb : a ≤ 537000956) :
    (init_tasks_stack hdl mem0).2 a = (init_task_frame (init_task_frame (init_task_frame mem0 536997888 (hdl 0)).1 537001984 (hdl 1)).1 537000960 (hdl 2)).1 a := by
  have e : (init_tasks_stack hdl mem0).2 = (init_task_frame (init_task_frame (init_task_frame (init_task_frame (init_task_frame mem0 536997888 (hdl 0)).1 537001984 (hdl 1)).1 537000960 (hdl 2)).1 536999936 (hdl 3)).1 536998912 (hdl 4)).1 := rfl
  rw [e,
    init_task_frame_preserves _ 536998912 _ a (by norm_num) (Or.inr (by omega)),
    init_task_frame_preserves _ 536999936 _ a (by norm_num) (Or.inr (by omega))]

lemma final_mem_task3 (hdl : Fin 5 → Nat) (mem0 : Nat → Nat) (a : Nat)
    (ha : 536999872 ≤ a) (hb : a ≤ 536999932) :
    (init_tasks_stack hdl mem0).2 a = (init_task_frame (init_task_frame (init_task_frame (init_task_frame mem0 536997888 (hdl 0)).1 537001984 (hdl 1)).1 537000960 (hdl 2)).1 536999936 (hdl 3)).1 a := by
  have e : (init_tasks_stack hdl mem0).2 = (init_task_frame (init_task_frame (init_task_frame (init_task_frame (init_task_frame mem0 536997888 (hdl 0)).1 537001984 (hdl 1)).1 537000960 (hdl 2)).1 536999936 (hdl 3)).1 536998912 (hdl 4)).1 := rfl
  rw [e,
    init_task_frame_preserves _ 536998912 _ a (by norm_num) (Or.inr (by omega))]

lemma final_mem_task4 (hdl : Fin 5 → Nat) (mem0 : Nat → Nat) (a : Nat) :
    (init_tasks_stack hdl mem0).2 a = (init_task_frame (init_task_frame (init_task_frame (init_task_frame (init_task_frame mem0 536997888 (hdl 0)).1 537001984 (hdl 1)).1 537000960 (hdl 2)).1 536999936 (hdl 3)).1 536998912 (hdl 4)).1 a := rfl

/-- C8: for every task, the stack-frame initializer writes, from the
initial stack top downward: the xPSR word 0x01000000 (Thumb bit), the
task's entry address in the PC slot, the exception-return link value
0xFFFFFFFD, five zeroed words for the hardware-restored registers
(R12, R3-R0) and eight zeroed words for the handler-restored registers
(R4-R11); the TCB's saved stack pointer then equals the stack top minus
16 words, just below the frame. -/
theorem stack_frame_layout (hdl : Fin 5 → Nat) (mem0 : Nat → Nat) (i : Fin 5) :
    (init_tasks_stack hdl mem0).2 (PSP_INIT_ADDRS i - 4) = DUMMY_XPSR ∧
    (init_tasks_stack hdl mem0).2 (PSP_INIT_ADDRS i - 8) = hdl i ∧
    (init_tasks_stack hdl mem0).2 (PSP_INIT_ADDRS i - 12) = 0xFFFFFFFD ∧
    (∀ k : Fin 5, (init_tasks_stack hdl mem0).2 (PSP_INIT_ADDRS i - 16 - 4 * k.val) = 0) ∧
    (∀ k : Fin 8, (init_tasks_stack hdl mem0).2 (PSP_INIT_ADDRS i - 36 - 4 * k.val) = 0) ∧
    ((init_tasks_stack hdl mem0).1 i).psp_value = PSP_INIT_ADDRS i - 16 * 4 := by
  fin_cases i
  · refine ⟨?_, ?_, ?_, fun k => ?_, fun k => ?_, ?_⟩
    · show (init_tasks_stack hdl mem0).2 536997884 = DUMMY_XPSR
      rw [final_mem_task0 hdl mem0 536997884 (by norm_num) (by norm_num)]
      exact init_task_frame_r4 _ _ _ (by norm_num)
    · show (init_tasks_stack hdl mem0).2 536997880 = hdl 0
      rw [final_mem_task0 hdl mem0 536997880 (by norm_num) (by norm_num)]
      exact init_task_frame_r8 _ _ _ (by norm_num)
    · show (init_tasks_stack hdl mem0).2 536997876 = 0xFFFFFFFD
      rw [final_mem_task0 hdl mem0 536997876 (by norm_num) (by norm_num)]
      exact init_task_frame_r12 _ _ _ (by norm_num)
    · fin_cases k
      · show (init_tasks_stack hdl mem0).2 536997872 = 0
        rw [final_mem_task0 hdl mem0 536997872 (by norm_num) (by norm_num)]
        exact init_task_frame_r16 _ _ _ (by norm_num)
      · show (init_tasks_stack hdl mem0).2 536997868 = 0
        rw [final_mem_task0 hdl mem0 536997868 (by norm_num) (by norm_num)]
        exact init_task_frame_r20 _ _ _ (by norm_num)
      · show (init_tasks_stack hdl mem0).2 536997864 = 0
        rw [final_mem_task0 hdl mem0 536997864 (by norm_num) (by norm_num)]
        exact init_task_frame_r24 _ _ _ (by norm_num)
      · show (init_tasks_stack hdl mem0).2 536997860 = 0
        rw [final_mem_task0 hdl mem0 536997860 (by norm_num) (by norm_num)]
        exact init_task_frame_r28 _ _ _ (by norm_num)
      · show (init_tasks_stack hdl mem0).2 536997856 = 0
        rw [final_mem_task0 hdl mem0 536997856 (by norm_num) (by norm_num)]
        exact init_task_frame_r32 _ _ _ (by norm_num)
    · fin_cases k
      · show (init_tasks_stack hdl mem0).2 536997852 = 0
        rw [final_mem_task0 hdl mem0 536997852 (by norm_num) (by norm_num)]
        exact init_task_frame_r36 _ _ _ (by norm_num)
      · show (init_tasks_stack hdl mem0).2 536997848 = 0
        rw [final_mem_task0 hdl mem0 536997848 (by norm_num) (by norm_num)]
        exact init_task_frame_r40 _ _ _ (by norm_num)
      · show (init_tasks_stack hdl mem0).2 536997844 = 0
        rw [final_mem_task0 hdl mem0 536997844 (by norm_num) (by norm_num)]
        exact init_task_frame_r44 _ _ _ (by norm_num)
      · show (init_tasks_stack hdl mem0).2 536997840 = 0
        rw [final_mem_task0 hdl mem0 536997840 (by norm_num) (by norm_num)]
        exact init_task_frame_r48 _ _ _ (by norm_num)
      · show (init_tasks_stack hdl mem0).2 536997836 = 0
        rw [final_mem_task0 hdl mem0 536997836 (by norm_num) (by norm_num)]
        exact init_task_frame_r52 _ _ _ (by norm_num)
      · show (init_tasks_stack hdl mem0).2 536997832 = 0
        rw [final_mem_task0 hdl mem0 536997832 (by norm_num) (by norm_num)]
        exact init_task_frame_r56 _ _ _ (by norm_num)
      · show (init_tasks_stack hdl mem0).2 536997828 = 0
        rw [final_mem_task0 hdl mem0 536997828 (by norm_num) (by norm_num)]
        exact init_task_frame_r60 _ _ _ (by norm_num)
      · show (init_tasks_stack hdl mem0).2 536997824 = 0
        rw [final_mem_task0 hdl mem0 536997824 (by norm_num) (by norm_num)]
        exact init_task_frame_r64 _ _ _ (by norm_num)
    · show ((init_tasks_stack hdl mem0).1 0).psp_value = 536997888 - 64
      rfl
  · refine ⟨?_, ?_, ?_, fun k => ?_, fun k => ?_, ?_⟩
    · show (init_tasks_stack hdl mem0).2 537001980 = DUMMY_XPSR
      rw [final_mem_task1 hdl mem0 537001980 (by norm_num) (by norm_num)]
      exact init_task_frame_r4 _ _ _ (by norm_num)
    · show (init_tasks_stack hdl mem0).2 537001976 = hdl 1
      rw [final_mem_task1 hdl mem0 537001976 (by norm_num) (by norm_num)]
      exact init_task_frame_r8 _ _ _ (by norm_num)
    · show (init_tasks_stack hdl mem0).2 537001972 = 0xFFFFFFFD
      rw [final_mem_task1 hdl mem0 537001972 (by norm_num) (by norm_num)]
      exact init_task_frame_r12 _ _ _ (by norm_num)
    · fin_cases k
      · show (init_tasks_stack hdl mem0).2 537001968 = 0
        rw [final_mem_task1 hdl mem0 537001968 (by norm_num) (by norm_num)]
        exact init_task_frame_r16 _ _ _ (by norm_num)
      · show (init_tasks_stack hdl mem0).2 537001964 = 0
        rw [final_mem_task1 hdl mem0 537001964 (by norm_num) (by norm_num)]
        exact init_task_frame_r20 _ _ _ (by norm_num)
      · show (init_tasks_stack hdl mem0).2 537001960 = 0
        rw [final_mem_task1 hdl mem0 537001960 (by norm_num) (by norm_num)]
        exact init_task_frame_r24 _ _ _ (by norm_num)
      · show (init_tasks_stack hdl mem0).2 537001956 = 0
        rw [final_mem_task1 hdl mem0 537001956 (by norm_num) (by norm_num)]
        exact init_task_frame_r28 _ _ _ (by norm_num)
      · show (init_tasks_stack hdl mem0).2 537001952 = 0
        rw [final_mem_task1 hdl mem0 537001952 (by norm_num) (by norm_num)]
        exact init_task_frame_r32 _ _ _ (by norm_num)
    · fin_cases k
      · show (init_tasks_stack hdl mem0).2 537001948 = 0
        rw [final_mem_task1 hdl mem0 537001948 (by norm_num) (by norm_num)]
        exact init_task_frame_r36 _ _ _ (by norm_num)
      · show (init_tasks_stack hdl mem0).2 537001944 = 0
        rw [final_mem_task1 hdl mem0 537001944 (by norm_num) (by norm_num)]
        exact init_task_frame_r40 _ _ _ (by norm_num)
      · show (init_tasks_stack hdl mem0).2 537001940 = 0
        rw [final_mem_task1 hdl mem0 537001940 (by norm_num) (by norm_num)]
        exact init_task_frame_r44 _ _ _ (by norm_num)
      · show (init_tasks_stack hdl mem0).2 537001936 = 0
        rw [final_mem_task1 hdl mem0 537001936 (by norm_num) (by norm_num)]
        exact init_task_frame_r48 _ _ _ (by norm_num)
      · show (init_tasks_stack hdl mem0).2 537001932 = 0
        rw [final_mem_task1 hdl mem0 537001932 (by norm_num) (by norm_num)]
        exact init_task_frame_r52 _ _ _ (by norm_num)
      · show (init_tasks_stack hdl mem0).2 537001928 = 0
        rw [final_mem_task1 hdl mem0 537001928 (by norm_num) (by norm_num)]
        exact init_task_frame_r56 _ _ _ (by norm_num)
      · show (init_tasks_stack hdl mem0).2 537001924 = 0
        rw [final_mem_task1 hdl mem0 537001924 (by norm_num) (by norm_num)]
        exact init_task_frame_r60 _ _ _ (by norm_num)
      · show (init_tasks_stack hdl mem0).2 537001920 = 0
        rw [final_mem_task1 hdl mem0 537001920 (by norm_num) (by norm_num)]
        exact init_task_frame_r64 _ _ _ (by norm_num)
    · show ((init_tasks_stack hdl mem0).1 1).psp_value = 537001984 - 64
      rfl
  · refine ⟨?_, ?_, ?_, fun k => ?_, fun k => ?_, ?_⟩
    · show (init_tasks_stack hdl mem0).2 537000956 = DUMMY_XPSR
      rw [final_mem_task2 hdl mem0 537000956 (by norm_num) (by norm_num)]
      exact init_task_frame_r4 _ _ _ (by norm_num)
    · show (init_tasks_stack hdl mem0).2 537000952 = hdl 2
      rw [final_mem_task2 hdl mem0 537000952 (by norm_num) (by norm_num)]
      exact init_task_frame_r8 _ _ _ (by norm_num)
    · show (init_tasks_stack hdl mem0).2 537000948 = 0xFFFFFFFD
      rw [final_mem_task2 hdl mem0 537000948 (by norm_num) (by norm_num)]
      exact init_task_frame_r12 _ _ _ (by norm_num)
    · fin_cases k
      · show (init_tasks_stack hdl mem0).2 537000944 = 0
        rw [final_mem_task2 hdl mem0 537000944 (by norm_num) (by norm_num)]
        exact init_task_frame_r16 _ _ _ (by norm_num)
      · show (init_tasks_stack hdl mem0).2 537000940 = 0
        rw [final_mem_task2 hdl mem0 537000940 (by norm_num) (by norm_num)]
        exact init_task_frame_r20 _ _ _ (by norm_num)
      · show (init_tasks_stack hdl mem0).2 537000936 = 0
        rw [final_mem_task2 hdl mem0 537000936 (by norm_num) (by norm_num)]
        exact init_task_frame_r24 _ _ _ (by norm_num)
      · show (init_tasks_stack hdl mem0).2 537000932 = 0
        rw [final_mem_task2 hdl mem0 537000932 (by norm_num) (by norm_num)]
        exact init_task_frame_r28 _ _ _ (by norm_num)
      · show (init_tasks_stack hdl mem0).2 537000928 = 0
        rw [final_mem_task2 hdl mem0 537000928 (by norm_num) (by norm_num)]
        exact init_task_frame_r32 _ _ _ (by norm_num)
    · fin_cases k
      · show (init_tasks_stack hdl mem0).2 537000924 = 0
        rw [final_mem_task2 hdl mem0 537000924 (by norm_num) (by norm_num)]
        exact init_task_frame_r36 _ _ _ (by norm_num)
      · show (init_tasks_stack hdl mem0).2 537000920 = 0
        rw [final_mem_task2 hdl mem0 537000920 (by norm_num) (by norm_num)]
        exact init_task_frame_r40 _ _ _ (by norm_num)
      · show (init_tasks_stack hdl mem0).2 537000916 = 0
        rw [final_mem_task2 hdl mem0 537000916 (by norm_num) (by norm_num)]
        exact init_task_frame_r44 _ _ _ (by norm_num)
      · show (init_tasks_stack hdl mem0).2 537000912 = 0
        rw [final_mem_task2 hdl mem0 537000912 (by norm_num) (by norm_num)]
        exact init_task_frame_r48 _ _ _ (by norm_num)
      · show (init_tasks_stack hdl mem0).2 537000908 = 0
        rw [final_mem_task2 hdl mem0 537000908 (by norm_num) (by norm_num)]
        exact init_task_frame_r52 _ _ _ (by norm_num)
      · show (init_tasks_stack hdl mem0).2 537000904 = 0
        rw [final_mem_task2 hdl mem0 537000904 (by norm_num) (by norm_num)]
        exact init_task_frame_r56 _ _ _ (by norm_num)
      · show (init_tasks_stack hdl mem0).2 537000900 = 0
        rw [final_mem_task2 hdl mem0 537000900 (by norm_num) (by norm_num)]
        exact init_task_frame_r60 _ _ _ (by norm_num)
      · show (init_tasks_stack hdl mem0).2 537000896 = 0
        rw [final_mem_task2 hdl mem0 537000896 (by norm_num) (by norm_num)]
        exact init_task_frame_r64 _ _ _ (by norm_num)
    · show ((init_tasks_stack hdl mem0).1 2).psp_value = 537000960 - 64
      rfl
  · refine ⟨?_, ?_, ?_, fun k => ?_, fun k => ?_, ?_⟩
    · show (init_tasks_stack hdl mem0).2 536999932 = DUMMY_XPSR
      rw [final_mem_task3 hdl mem0 536999932 (by norm_num) (by norm_num)]
      exact init_task_frame_r4 _ _ _ (by norm_num)
    · show (init_tasks_stack hdl mem0).2 536999928 = hdl 3
      rw [final_mem_task3 hdl mem0 536999928 (by norm_num) (by norm_num)]
      exact init_task_frame_r8 _ _ _ (by norm_num)
    · show (init_tasks_stack hdl mem0).2 536999924 = 0xFFFFFFFD
      rw [final_mem_task3 hdl mem0 536999924 (by norm_num) (by norm_num)]
      exact init_task_frame_r12 _ _ _ (by norm_num)
    · fin_cases k
      · show (init_tasks_stack hdl mem0).2 536999920 = 0
        rw [final_mem_task3 hdl mem0 536999920 (by norm_num) (by norm_num)]
        exact init_task_frame_r16 _ _ _ (by norm_num)
      · show (init_tasks_stack hdl mem0).2 536999916 = 0
        rw [final_mem_task3 hdl mem0 536999916 (by norm_num) (by norm_num)]
        exact init_task_frame_r20 _ _ _ (by norm_num)
      · show (init_tasks_stack hdl mem0).2 536999912 = 0
        rw [final_mem_task3 hdl mem0 536999912 (by norm_num) (by norm_num)]
        exact init_task_frame_r24 _ _ _ (by norm_num)
      · show (init_tasks_stack hdl mem0).2 536999908 = 0
        rw [final_mem_task3 hdl mem0 536999908 (by norm_num) (by norm_num)]
        exact init_task_frame_r28 _ _ _ (by norm_num)
      · show (init_tasks_stack hdl mem0).2 536999904 = 0
        rw [final_mem_task3 hdl mem0 536999904 (by norm_num) (by norm_num)]
        exact init_task_frame_r32 _ _ _ (by norm_num)
    · fin_cases k
      · show (init_tasks_stack hdl mem0).2 536999900 = 0
        rw [final_mem_task3 hdl mem0 536999900 (by norm_num) (by norm_num)]
        exact init_task_frame_r36 _ _ _ (by norm_num)
      · show (init_tasks_stack hdl mem0).2 536999896 = 0
        rw [final_mem_task3 hdl mem0 536999896 (by norm_num) (by norm_num)]
        exact init_task_frame_r40 _ _ _ (by norm_num)
      · show (init_tasks_stack hdl mem0).2 536999892 = 0
        rw [final_mem_task3 hdl mem0 536999892 (by norm_num) (by norm_num)]
        exact init_task_frame_r44 _ _ _ (by norm_num)
      · show (init_tasks_stack hdl mem0).2 536999888 = 0
        rw [final_mem_task3 hdl mem0 536999888 (by norm_num) (by norm_num)]
        exact init_task_frame_r48 _ _ _ (by norm_num)
      · show (init_tasks_stack hdl mem0).2 536999884 = 0
        rw [final_mem_task3 hdl mem0 536999884 (by norm_num) (by norm_num)]
        exact init_task_frame_r52 _ _ _ (by norm_num)
      · show (init_tasks_stack hdl mem0).2 536999880 = 0
        rw [final_mem_task3 hdl mem0 536999880 (by norm_num) (by norm_num)]
        exact init_task_frame_r56 _ _ _ (by norm_num)
      · show (init_tasks_stack hdl mem0).2 536999876 = 0
        rw [final_mem_task3 hdl mem0 536999876 (by norm_num) (by norm_num)]
        exact init_task_frame_r60 _ _ _ (by norm_num)
      · show (init_tasks_stack hdl mem0).2 536999872 = 0
        rw [final_mem_task3 hdl mem0 536999872 (by norm_num) (by norm_num)]
        exact init_task_frame_r64 _ _ _ (by norm_num)
    · show ((init_tasks_stack hdl mem0).1 3).psp_value = 536999936 - 64
      rfl
  · refine ⟨?_, ?_, ?_, fun k => ?_, fun k => ?_, ?_⟩
    · show (init_tasks_stack hdl mem0).2 536998908 = DUMMY_XPSR
      rw [final_mem_task4 hdl mem0]
      exact init_task_frame_r4 _ _ _ (by norm_num)
    · show (init_tasks_stack hdl mem0).2 536998904 = hdl 4
      rw [final_mem_task4 hdl mem0]
      exact init_task_frame_r8 _ _ _ (by norm_num)
    · show (init_tasks_stack hdl mem0).2 536998900 = 0xFFFFFFFD
      rw [final_mem_task4 hdl mem0]
      exact init_task_frame_r12 _ _ _ (by norm_num)
    · fin_cases k
      · show (init_tasks_stack hdl mem0).2 536998896 = 0
        rw [final_mem_task4 hdl mem0]
        exact init_task_frame_r16 _ _ _ (by norm_num)
      · show (init_tasks_stack hdl mem0).2 536998892 = 0
        rw [final_mem_task4 hdl mem0]
        exact init_task_frame_r20 _ _ _ (by norm_num)
      · show (init_tasks_stack hdl mem0).2 536998888 = 0
        rw [final_mem_task4 hdl mem0]
        exact init_task_frame_r24 _ _ _ (by norm_num)
      · show (init_tasks_stack hdl mem0).2 536998884 = 0
        rw [final_mem_task4 hdl mem0]
        exact init_task_frame_r28 _ _ _ (by norm_num)
      · show (init_tasks_stack hdl mem0).2 536998880 = 0
        rw [final_mem_task4 hdl mem0]
        exact init_task_frame_r32 _ _ _ (by norm_num)
    · fin_cases k
      · show (init_tasks_stack hdl mem0).2 536998876 = 0
        rw [final_mem_task4 hdl mem0]
        exact init_task_frame_r36 _ _ _ (by norm_num)
      · show (init_tasks_stack hdl mem0).2 536998872 = 0
        rw [final_mem_task4 hdl mem0]
        exact init_task_frame_r40 _ _ _ (by norm_num)
      · show (init_tasks_stack hdl mem0).2 536998868 = 0
        rw [final_mem_task4 hdl mem0]
        exact init_task_frame_r44 _ _ _ (by norm_num)
      · show (init_tasks_stack hdl mem0).2 536998864 = 0
        rw [final_mem_task4 hdl mem0]
        exact init_task_frame_r48 _ _ _ (by norm_num)
      · show (init_tasks_stack hdl mem0).2 536998860 = 0
        rw [final_mem_task4 hdl mem0]
        exact init_task_frame_r52 _ _ _ (by norm_num)
      · show (init_tasks_stack hdl mem0).2 536998856 = 0
        rw [final_mem_task4 hdl mem0]
        exact init_task_frame_r56 _ _ _ (by norm_num)
      · show (init_tasks_stack hdl mem0).2 536998852 = 0
        rw [final_mem_task4 hdl mem0]
        exact init_task_frame_r60 _ _ _ (by norm_num)
      · show (init_tasks_stack hdl mem0).2 536998848 = 0
        rw [final_mem_task4 hdl mem0]
        exact init_task_frame_r64 _ _ _ (by norm_num)
    · show ((init_tasks_stack hdl mem0).1 4).psp_value = 536998912 - 64
      rfl

-- -----------------------------------------------------------------------------
-- C2: small projection lemmas for the step functions
-- -----------------------------------------------------------------------------

lemma task_delay_self_state (d : Nat) (s : SchedState) :
    ((task_delay d s).user_tasks s.current_task).current_state = TaskState.blocked := by
  simp [task_delay, schedule]

lemma task_delay_self_count (d : Nat) (s : SchedState) :
    ((task_delay d s).user_tasks s.current_task).block_count
      = (s.g_tick_count + d) % U32_MOD := by
  simp [task_delay, schedule]

lemma task_delay_other (d : Nat) (s : SchedState) (i : Fin 5)
    (hi : i ≠ s.current_task) :
    (task_delay d s).user_tasks i = s.user_tasks i := by
  simp [task_delay, schedule, Function.update_noteq hi]

lemma task_delay_tick (d : Nat) (s : SchedState) :
    (task_delay d s).g_tick_count = s.g_tick_count := rfl

lemma task_delay_cur (d : Nat) (s : SchedState) :
    (task_delay d s).current_task = s.current_task := rfl

lemma systick_tasks (s : SchedState) (i : Fin 5) :
    (SysTick_Handler s).user_tasks i
      = unblock_tasks s.user_tasks (update_global_tick_count s.g_tick_count) i := rfl

lemma systick_g (s : SchedState) :
    (SysTick_Handler s).g_tick_count = update_global_tick_count s.g_tick_count := rfl

lemma pendsv_switch_states (psp : Nat) (s : SchedState) (i : Fin 5) :
    ((pendsv_switch psp s).user_tasks i).current_state
      = (s.user_tasks i).current_state := by
  show ((Function.update s.user_tasks s.current_task
    { s.user_tasks s.current_task with psp_value := psp }) i).current_state = _
  by_cases hc : i = s.current_task
  · subst hc
    simp
  · simp [Function.update_noteq hc]

lemma pendsv_switch_counts (psp : Nat) (s : SchedState) (i : Fin 5) :
    ((pendsv_switch psp s).user_tasks i).block_count
      = (s.user_tasks i).block_count := by
  show ((Function.update s.user_tasks s.current_task
    { s.user_tasks s.current_task with psp_value := psp }) i).block_count = _
  by_cases hc : i = s.current_task
  · subst hc
    simp
  · simp [Function.update_noteq hc]

lemma pendsv_switch_cur (psp : Nat) (s : SchedState) :
    (pendsv_switch psp s).current_task
      = update_current_task s.user_tasks s.current_task := by
  show update_current_task (Function.update s.user_tasks s.current_task
    { s.user_tasks s.current_task with psp_value := psp }) s.current_task = _
  apply update_current_task_states
  intro i
  by_cases hc : i = s.current_task
  · subst hc
    simp
  · simp [Function.update_noteq hc]

lemma tick_then_switch_state (s : SchedState) (i : Fin 5) :
    ((tick_then_switch s).user_tasks i).current_state
      = ((SysTick_Handler s).user_tasks i).current_state := by
  simp only [tick_then_switch]
  exact pendsv_switch_states _ _ _

lemma tick_then_switch_count (s : SchedState) (i : Fin 5) :
    ((tick_then_switch s).user_tasks i).block_count
      = ((SysTick_Handler s).user_tasks i).block_count := by
  simp only [tick_then_switch]
  exact pendsv_switch_counts _ _ _

lemma tick_then_switch_tick (s : SchedState) :
    (tick_then_switch s).g_tick_count = (SysTick_Handler s).g_tick_count := rfl

lemma tick_then_switch_cur (s : SchedState) :
    (tick_then_switch s).current_task
      = update_current_task (SysTick_Handler s).user_tasks s.current_task := by
  simp only [tick_then_switch]
  rw [pendsv_switch_cur]
  rfl

-- Concrete selection facts, checked over all state tables, then transferred.

lemma sel_from_one_decide : ∀ (a b d e : TaskState),
    update_current_task (mkTable5 a b TaskState.ready d e) 1 = 2 := by
  intro a b d e
  cases a <;> cases b <;> cases d <;> cases e <;> decide

lemma sel_cycle_decide : ∀ (a : TaskState),
    update_current_task
      (mkTable5 a TaskState.blocked TaskState.ready TaskState.ready TaskState.ready) 2 = 3 ∧
    update_current_task
      (mkTable5 a TaskState.blocked TaskState.ready TaskState.ready TaskState.ready) 3 = 4 ∧
    update_current_task
      (mkTable5 a TaskState.blocked TaskState.ready TaskState.ready TaskState.ready) 4 = 2 := by
  intro a
  cases a <;> decide

lemma sel_from_four_decide : ∀ (a c d e : TaskState),
    update_current_task (mkTable5 a TaskState.ready c d e) 4 = 1 := by
  intro a c d e
  cases a <;> cases c <;> cases d <;> cases e <;> decide

lemma sel_from_one (tasks : Fin 5 → TCB)
    (h2 : (tasks 2).current_state = TaskState.ready) :
    update_current_task tasks 1 = 2 := by
  have hcong : ∀ i, (mkTable5 (tasks 0).current_state (tasks 1).current_state
      TaskState.ready (tasks 3).current_state (tasks 4).current_state i).current_state
      = (tasks i).current_state := by
    intro i
    fin_cases i
    · rfl
    · rfl
    · exact h2.symm
    · rfl
    · rfl
  rw [← update_current_task_states _ tasks hcong 1]
  exact sel_from_one_decide (tasks 0).current_state (tasks 1).current_state
    (tasks 3).current_state (tasks 4).current_state

lemma sel_cycle (tasks : Fin 5 → TCB)
    (h1 : (tasks 1).current_state = TaskState.blocked)
    (h2 : (tasks 2).current_state = TaskState.ready)
    (h3 : (tasks 3).current_state = TaskState.ready)
    (h4 : (tasks 4).current_state = TaskState.ready) :
    update_current_task tasks 2 = 3 ∧ update_current_task tasks 3 = 4 ∧
      update_current_task tasks 4 = 2 := by
  have hcong : ∀ i, (mkTable5 (tasks 0).current_state TaskState.blocked
      TaskState.ready TaskState.ready TaskState.ready i).current_state
      = (tasks i).current_state := by
    intro i
    fin_cases i
    · rfl
    · exact h1.symm
    · exact h2.symm
    · exact h3.symm
    · exact h4.symm
  refine ⟨?_, ?_, ?_⟩ <;>
    rw [← update_current_task_states _ tasks hcong]
  · exact (sel_cycle_decide (tasks 0).current_state).1
  · exact (sel_cycle_decide (tasks 0).current_state).2.1
  · exact (sel_cycle_decide (tasks 0).current_state).2.2

lemma sel_from_four (tasks : Fin 5 → TCB)
    (h1 : (tasks 1).current_state = TaskState.ready) :
    update_current_task tasks 4 = 1 := by
  have hcong : ∀ i, (mkTable5 (tasks 0).current_state TaskState.ready
      (tasks 2).current_state (tasks 3).current_state (tasks 4).current_state
      i).current_state = (tasks i).current_state := by
    intro i
    fin_cases i
    · rfl
    · exact h1.symm
    · rfl
    · rfl
    · rfl
  rw [← update_current_task_states _ tasks hcong 4]
  exact sel_from_four_decide (tasks 0).current_state (tasks 2).current_state
    (tasks 3).current_state (tasks 4).current_state

lemma c2_invariant (s : SchedState) (hcur : s.current_task = 1)
    (h2 : (s.user_tasks 2).current_state = TaskState.ready)
    (h3 : (s.user_tasks 3).current_state = TaskState.ready)
    (h4 : (s.user_tasks 4).current_state = TaskState.ready) :
    ∀ n, 1 ≤ n → n ≤ U32_MOD - 1 →
      ((tick_then_switch^[n] (task_delay 0 s)).user_tasks 1).current_state
          = TaskState.blocked ∧
      ((tick_then_switch^[n] (task_delay 0 s)).user_tasks 1).block_count
          = s.g_tick_count % U32_MOD ∧
      ((tick_then_switch^[n] (task_delay 0 s)).user_tasks 2).current_state
          = TaskState.ready ∧
      ((tick_then_switch^[n] (task_delay 0 s)).user_tasks 3).current_state
          = TaskState.ready ∧
      ((tick_then_switch^[n] (task_delay 0 s)).user_tasks 4).current_state
          = TaskState.ready ∧
      (tick_then_switch^[n] (task_delay 0 s)).g_tick_count
          = (s.g_tick_count + n) % U32_MOD ∧
      (tick_then_switch^[n] (task_delay 0 s)).current_task.val = 2 + (n - 1) % 3 := by
  intro n hn1
  induction n, hn1 using Nat.le_induction with
  | base =>
      intro _
      simp only [Function.iterate_one]
      have sd1 : ((task_delay 0 s).user_tasks 1).current_state = TaskState.blocked := by
        rw [← hcur]
        exact task_delay_self_state 0 s
      have sdbc : ((task_delay 0 s).user_tasks 1).block_count
          = (s.g_tick_count + 0) % U32_MOD := by
        rw [← hcur]
        exact task_delay_self_count 0 s
      have sd2 : (task_delay 0 s).user_tasks 2 = s.user_tasks 2 :=
        task_delay_other 0 s 2 (by rw [hcur]; decide)
      have sd3 : (task_delay 0 s).user_tasks 3 = s.user_tasks 3 :=
        task_delay_other 0 s 3 (by rw [hcur]; decide)
      have sd4 : (task_delay 0 s).user_tasks 4 = s.user_tasks 4 :=
        task_delay_other 0 s 4 (by rw [hcur]; decide)
      have hne : ¬ (((task_delay 0 s).user_tasks 1).block_count
          = update_global_tick_count (task_delay 0 s).g_tick_count) := by
        rw [sdbc, task_delay_tick]
        simp only [update_global_tick_count, U32_MOD]
        omega
      have u2 : ((SysTick_Handler (task_delay 0 s)).user_tasks 2).current_state
          = TaskState.ready := by
        rw [systick_tasks, unblock_preserves_ready _ _ _ (by rw [sd2]; exact h2),
          sd2]
        exact h2
      have u3 : ((SysTick_Handler (task_delay 0 s)).user_tasks 3).current_state
          = TaskState.ready := by
        rw [systick_tasks, unblock_preserves_ready _ _ _ (by rw [sd3]; exact h3),
          sd3]
        exact h3
      have u4 : ((SysTick_Handler (task_delay 0 s)).user_tasks 4).current_state
          = TaskState.ready := by
        rw [systick_tasks, unblock_preserves_ready _ _ _ (by rw [sd4]; exact h4),
          sd4]
        exact h4
      refine ⟨?_, ?_, ?_, ?_, ?_, ?_, ?_⟩
      · rw [tick_then_switch_state, systick_tasks,
          unblock_blocked_cases _ _ _ sd1, if_neg hne]
        exact sd1
      · rw [tick_then_switch_count, systick_tasks, unblock_block_count, sdbc]
        simp
      · rw [tick_then_switch_state]
        exact u2
      · rw [tick_then_switch_state]
        exact u3
      · rw [tick_then_switch_state]
        exact u4
      · rw [tick_then_switch_tick, systick_g, task_delay_tick]
        rfl
      · have hc : (tick_then_switch (task_delay 0 s)).current_task = 2 := by
          rw [tick_then_switch_cur, task_delay_cur, hcur]
          exact sel_from_one _ u2
        rw [hc]
        decide
  | succ n hn ih =>
      intro hb
      obtain ⟨i1, ibc, i2, i3, i4, ig, icv⟩ := ih (by
        simp only [U32_MOD] at hb ⊢
        omega)
      simp only [Function.iterate_succ_apply']
      have hne : ¬ (((tick_then_switch^[n] (task_delay 0 s)).user_tasks 1).block_count
          = update_global_tick_count
              (tick_then_switch^[n] (task_delay 0 s)).g_tick_count) := by
        rw [ibc, ig]
        simp only [update_global_tick_count, U32_MOD]
        simp only [U32_MOD] at hb
        omega
      have u1 : ((SysTick_Handler (tick_then_switch^[n] (task_delay 0 s))).user_tasks
          1).current_state = TaskState.blocked := by
        rw [systick_tasks, unblock_blocked_cases _ _ _ i1, if_neg hne]
        exact i1
      have u2 : ((SysTick_Handler (tick_then_switch^[n] (task_delay 0 s))).user_tasks
          2).current_state = TaskState.ready := by
        rw [systick_tasks, unblock_preserves_ready _ _ _ i2]
        exact i2
      have u3 : ((SysTick_Handler (tick_then_switch^[n] (task_delay 0 s))).user_tasks
          3).current_state = TaskState.ready := by
        rw [systick_tasks, unblock_preserves_ready _ _ _ i3]
        exact i3
      have u4 : ((SysTick_Handler (tick_then_switch^[n] (task_delay 0 s))).user_tasks
          4).current_state = TaskState.ready := by
        rw [systick_tasks, unblock_preserves_ready _ _ _ i4]
        exact i4
      refine ⟨?_, ?_, ?_, ?_, ?_, ?_, ?_⟩
      · rw [tick_then_switch_state]
        exact u1
      · rw [tick_then_switch_count, systick_tasks, unblock_block_count, ibc]
      · rw [tick_then_switch_state]
        exact u2
      · rw [tick_then_switch_state]
        exact u3
      · rw [tick_then_switch_state]
        exact u4
      · rw [tick_then_switch_tick, systick_g, ig]
        simp only [update_global_tick_count, U32_MOD]
        omega
      · have hcyc := sel_cycle
          ((SysTick_Handler (tick_then_switch^[n] (task_delay 0 s))).user_tasks)
          u1 u2 u3 u4
        rw [tick_then_switch_cur]
        have h3cases : (n - 1) % 3 = 0 ∨ (n - 1) % 3 = 1 ∨ (n - 1) % 3 = 2 := by
          omega
        rcases h3cases with h0 | h1 | hc2
        · have hcv : (tick_then_switch^[n] (task_delay 0 s)).current_task
              = (2 : Fin 5) := Fin.ext (by rw [icv, h0]; decide)
          rw [hcv, hcyc.1]
          have hn3 : n % 3 = 1 := by omega
          rw [Nat.add_sub_cancel, hn3]
          decide
        · have hcv : (tick_then_switch^[n] (task_delay 0 s)).current_task
              = (3 : Fin 5) := Fin.ext (by rw [icv, h1]; decide)
          rw [hcv, hcyc.2.1]
          have hn3 : n % 3 = 2 := by omega
          rw [Nat.add_sub_cancel, hn3]
          decide
        · have hcv : (tick_then_switch^[n] (task_delay 0 s)).current_task
              = (4 : Fin 5) := Fin.ext (by rw [icv, hc2]; decide)
          rw [hcv, hcyc.2.2]
          have hn3 : n % 3 = 0 := by omega
          rw [Nat.add_sub_cancel, hn3]
          decide

/-- C2: a task that calls `task_delay 0` is not stuck forever: the system
keeps running, and in the run in which every tick services the pended
switch, the caller is eventually selected to run again.  Concretely the
code's policy is that duration 0 behaves as a delay of 2^32 ticks: the
recorded wake tick equals the tick at the call, which the incrementing
uint32 counter reaches again only after wrapping around. -/
theorem delay_zero_no_deadlock (s : SchedState) (hcur : s.current_task = 1)
    (h2 : (s.user_tasks 2).current_state = TaskState.ready)
    (h3 : (s.user_tasks 3).current_state = TaskState.ready)
    (h4 : (s.user_tasks 4).current_state = TaskState.ready) :
    ∃ n, 0 < n ∧ (tick_then_switch^[n] (task_delay 0 s)).current_task = 1 := by
  obtain ⟨i1, ibc, i2, i3, i4, ig, icv⟩ :=
    c2_invariant s hcur h2 h3 h4 (U32_MOD - 1) (by norm_num [U32_MOD]) (le_refl _)
  refine ⟨U32_MOD, by norm_num [U32_MOD], ?_⟩
  have hM : U32_MOD = (U32_MOD - 1) + 1 := by norm_num [U32_MOD]
  rw [hM, Function.iterate_succ_apply']
  have heq : ((tick_then_switch^[U32_MOD - 1] (task_delay 0 s)).user_tasks
      1).block_count
      = update_global_tick_count
          (tick_then_switch^[U32_MOD - 1] (task_delay 0 s)).g_tick_count := by
    rw [ibc, ig]
    simp only [update_global_tick_count, U32_MOD]
    omega
  have u1 : ((SysTick_Handler (tick_then_switch^[U32_MOD - 1]
      (task_delay 0 s))).user_tasks 1).current_state = TaskState.ready := by
    rw [systick_tasks, unblock_blocked_cases _ _ _ i1, if_pos heq]
  have hc4 : (tick_then_switch^[U32_MOD - 1] (task_delay 0 s)).current_task
      = (4 : Fin 5) := by
    apply Fin.ext
    rw [icv]
    norm_num [U32_MOD]
    decide
  rw [tick_then_switch_cur, hc4]
  exact sel_from_four _ u1

theorem delay_zero_no_deadlock_witness :
    ∃ n, 0 < n ∧
      (tick_then_switch^[n] (task_delay 0 sampleState)).current_task = 1 :=
  delay_zero_no_deadlock sampleState rfl (by decide) (by decide) (by decide)
